import Mathlib

/-!
# The HS100 smart-plug client (`hs100.go`)

A shallow embedding of the accessors of `HS100` and the properties their
documentation states.

Conventions of the embedding.

* A Go `error` is a `GoError`; the `nil` error is `none`.
* A function returning `(T, error)` returns a pair `T × Option GoError`.
* A pointer is an `Option` whose `none` is the nil pointer, and a slice is a
  list whose `[]` is the nil slice.
* The accessors are written over an arbitrary monad `m` in which the package
  function `exec` runs, so that the same definition can be read as a pure
  function (`m = Id`) and as a program that records every call of `exec`
  (`m = Trace`).
* `json.Unmarshal` into a `Response`, the package `time` and `fmt.Println`
  belong to the Go standard library and are parameters.
* Go `int` values are `Int`: the source compares them with `0` and prints
  them, it never does arithmetic on them.
-/

namespace tplink

/-! ## Go values -/

/-- A Go `error` value, identified by the text of its `Error()` method. -/
structure GoError where
  msg : String
deriving DecidableEq, Repr

/-- An operand handed to `fmt.Sprintf` or `fmt.Errorf`: a Go string or a Go integer. -/
inductive Arg where
  | str (s : String)
  | int (n : Int)
deriving DecidableEq, Repr

/-- The characters of a string. -/
def chars (s : String) : List Char := s.data

/-- The decimal digit `d` as a character. -/
def digitChar (d : Nat) : Char := Char.ofNat (48 + d)

/-- Decimal digits of `n`, most significant first, in front of `acc`. The first
argument bounds the number of digits and is never exhausted from `decimal`. -/
def decimalAux : Nat → Nat → List Char → List Char
  | 0, _, acc => acc
  | fuel + 1, n, acc =>
    if n < 10 then digitChar n :: acc
    else decimalAux fuel (n / 10) (digitChar (n % 10) :: acc)

/-- Decimal rendering of a natural number. -/
def decimal (n : Nat) : List Char := decimalAux (n + 1) n []

/-- Decimal rendering of a Go integer, as the verb `%d` prints it. -/
def itoa : Int → List Char
  | Int.ofNat n => decimal n
  | Int.negSucc n => '-' :: decimal (n + 1)

/-- The Go type name of an operand, as the diagnostics of package `fmt` print it. -/
def Arg.typeName : Arg → List Char
  | .str _ => chars "string"
  | .int _ => chars "int"

/-- The plain (`%v`) rendering of an operand. -/
def Arg.plain : Arg → List Char
  | .str s => s.data
  | .int n => itoa n

/-- One operand printed under one verb. Only the verbs `s`, `d` and `v` are
modelled; an operand of the other kind gives the diagnostic of package `fmt`. -/
def verbOperand (verb : Char) (a : Arg) : List Char :=
  match a with
  | .str s =>
    if verb = 's' ∨ verb = 'v' then s.data
    else '%' :: '!' :: verb :: '(' :: (a.typeName ++ '=' :: a.plain ++ [')'])
  | .int n =>
    if verb = 'd' ∨ verb = 'v' then itoa n
    else '%' :: '!' :: verb :: '(' :: (a.typeName ++ '=' :: a.plain ++ [')'])

/-- The operands left over when the format is exhausted, separated by a comma and a blank. -/
def extraList : List Arg → List Char
  | [] => []
  | [a] => a.typeName ++ '=' :: a.plain
  | a :: b :: rest => a.typeName ++ '=' :: a.plain ++ ',' :: ' ' :: extraList (b :: rest)

/-- The `%!(EXTRA ...)` diagnostic of package `fmt`, empty when no operand is left. -/
def extraOperands : List Arg → List Char
  | [] => []
  | a :: rest => chars "%!(EXTRA " ++ extraList (a :: rest) ++ [')']

/-- The scanning loop of `fmt.Sprintf` over the characters of the format. -/
def SprintfAux : List Char → List Arg → List Char
  | [], args => extraOperands args
  | c :: rest, args =>
    if c = '%' then
      match rest with
      | [] => chars "%!(NOVERB)" ++ extraOperands args
      | v :: rest' =>
        if v = '%' then '%' :: SprintfAux rest' args
        else
          match args with
          | [] => '%' :: '!' :: v :: (chars "(MISSING)" ++ SprintfAux rest' [])
          | a :: args' => verbOperand v a ++ SprintfAux rest' args'
    else c :: SprintfAux rest args

/-- The call `fmt.Sprintf(format, args...)`, for the verbs `%s`, `%d`, `%v` and
`%%` without flags or width; a missing operand, a left-over operand and a verb
that does not fit its operand give the diagnostics of package `fmt`. -/
def Sprintf (format : String) (args : List Arg) : String :=
  String.mk (SprintfAux format.data args)

/-- The call `fmt.Errorf(format, args...)`: an error whose text is the formatted string. -/
def Errorf (format : String) (args : List Arg) : GoError :=
  ⟨Sprintf format args⟩

/-! ## Constants of the package

The command texts and the enumeration constants below are declared in a file
of the package other than `hs100.go`. Their module and action names are those
of section 6 of the specification and their verbs are those that the calls of
`fmt.Sprintf` in `hs100.go` fill; the remaining members follow the protocol of
the device. Only the statements about the string arguments of `SetAlias`,
`SetWifi` and `CloudBind` depend on the text of a template, and only through
the place of its verbs. -/

/-- Modelled from the spec: the command text `{"system":{"get_sysinfo":{}}}` (section 6, module `system`). -/
def GET_INFO : String := "\x7b\"system\":\x7b\"get_sysinfo\":\x7b\x7d\x7d\x7d"

/-- Modelled from the spec: the command text `{"system":{"reboot":{"delay":1}}}`. -/
def REBOOT : String := "\x7b\"system\":\x7b\"reboot\":\x7b\"delay\":1\x7d\x7d\x7d"

/-- Modelled from the spec: the command text `{"system":{"reset":{"delay":1}}}`. -/
def RESET : String := "\x7b\"system\":\x7b\"reset\":\x7b\"delay\":1\x7d\x7d\x7d"

/-- Modelled from the spec: the template `{"system":{"set_dev_alias":{"alias":"%s"}}}`. -/
def SET_ALIAS : String := "\x7b\"system\":\x7b\"set_dev_alias\":\x7b\"alias\":\"%s\"\x7d\x7d\x7d"

/-- Modelled from the spec: the command text `{"system":{"set_relay_state":{"state":1}}}` (the literal request of section 6). -/
def TURN_ON : String := "\x7b\"system\":\x7b\"set_relay_state\":\x7b\"state\":1\x7d\x7d\x7d"

/-- Modelled from the spec: the command text `{"system":{"set_relay_state":{"state":0}}}`. -/
def TURN_OFF : String := "\x7b\"system\":\x7b\"set_relay_state\":\x7b\"state\":0\x7d\x7d\x7d"

/-- Modelled from the spec: the command text `{"system":{"set_led_off":{"off":0}}}`. -/
def TURN_LED_ON : String := "\x7b\"system\":\x7b\"set_led_off\":\x7b\"off\":0\x7d\x7d\x7d"

/-- Modelled from the spec: the command text `{"system":{"set_led_off":{"off":1}}}`. -/
def TURN_LED_OFF : String := "\x7b\"system\":\x7b\"set_led_off\":\x7b\"off\":1\x7d\x7d\x7d"

/-- Modelled from the spec: the command text `{"time":{"get_timezone":{}}}`. -/
def GET_TIMEZONE : String := "\x7b\"time\":\x7b\"get_timezone\":\x7b\x7d\x7d\x7d"

/-- Modelled from the spec: the command text `{"time":{"get_time":{}}}`. -/
def GET_TIME : String := "\x7b\"time\":\x7b\"get_time\":\x7b\x7d\x7d\x7d"

/-- Modelled from the spec: the template
`{"time":{"set_timezone":{"year":%d,"month":%d,"mday":%d,"hour":%d,"min":%d,"sec":%d,"index":%d}}}`. -/
def SET_TIMEZONE : String :=
  "\x7b\"time\":\x7b\"set_timezone\":\x7b\"year\":%d,\"month\":%d,\"mday\":%d,\"hour\":%d,\"min\":%d,\"sec\":%d,\"index\":%d\x7d\x7d\x7d"

/-- Modelled from the spec: the command text `{"netif":{"get_scaninfo":{"refresh":1}}}`. -/
def SCAN_WIFI : String := "\x7b\"netif\":\x7b\"get_scaninfo\":\x7b\"refresh\":1\x7d\x7d\x7d"

/-- Modelled from the spec: the template
`{"netif":{"set_stainfo":{"ssid":"%s","password":"%s","key_type":%d}}}`. -/
def SET_WIFI : String :=
  "\x7b\"netif\":\x7b\"set_stainfo\":\x7b\"ssid\":\"%s\",\"password\":\"%s\",\"key_type\":%d\x7d\x7d\x7d"

/-- Modelled from the spec: the command text `{"cnCloud":{"get_info":{}}}`. -/
def GET_CLOUD_INFO : String := "\x7b\"cnCloud\":\x7b\"get_info\":\x7b\x7d\x7d\x7d"

/-- Modelled from the spec: the template `{"cnCloud":{"set_server_url":{"server":"%s"}}}`. -/
def SET_CLOUD_URL : String := "\x7b\"cnCloud\":\x7b\"set_server_url\":\x7b\"server\":\"%s\"\x7d\x7d\x7d"

/-- Modelled from the spec: the template `{"cnCloud":{"bind":{"username":"%s","password":"%s"}}}`. -/
def CLOUD_BIND : String :=
  "\x7b\"cnCloud\":\x7b\"bind\":\x7b\"username\":\"%s\",\"password\":\"%s\"\x7d\x7d\x7d"

/-- Modelled from the spec: the command text `{"cnCloud":{"unbind":{}}}`. -/
def CLOUD_UNBIND : String := "\x7b\"cnCloud\":\x7b\"unbind\":\x7b\x7d\x7d\x7d"

/-- Modelled from the spec: the command text `{"schedule":{"get_next_action":{}}}`. -/
def GET_NEXT_SCHEDULE_ACTION : String := "\x7b\"schedule\":\x7b\"get_next_action\":\x7b\x7d\x7d\x7d"

/-- Modelled from the spec: the command text `{"schedule":{"get_rules":{}}}`. -/
def GET_SCHEDULE_RULES_LIST : String := "\x7b\"schedule\":\x7b\"get_rules\":\x7b\x7d\x7d\x7d"

/-- Modelled from the spec: the template of `schedule/add_rule`, whose ten verbs
take, in this order, the time option, the weekday flags, the minutes, the enable
flag, the repeat flag, the name, the month, the action, the year and the day. -/
def ADD_SCHEDULE_RULE : String :=
  "\x7b\"schedule\":\x7b\"add_rule\":\x7b\"stime_opt\":%d,\"wday\":%s,\"smin\":%d,\"enable\":%d,\"repeat\":%d,\"etime_opt\":-1,\"name\":\"%s\",\"eact\":-1,\"month\":%d,\"sact\":%d,\"year\":%d,\"longitude\":0,\"day\":%d,\"force\":0,\"latitude\":0,\"emin\":0\x7d,\"set_overall_enable\":\x7b\"enable\":1\x7d\x7d\x7d"

/-- Modelled from the spec: the template of `schedule/edit_rule`, whose eleven
verbs take the time option, the weekday flags, the minutes, the enable flag, the
repeat flag, the rule id, the name, the month, the action, the year and the day. -/
def EDIT_SCHEDULE_RULE : String :=
  "\x7b\"schedule\":\x7b\"edit_rule\":\x7b\"stime_opt\":%d,\"wday\":%s,\"smin\":%d,\"enable\":%d,\"repeat\":%d,\"etime_opt\":-1,\"id\":\"%s\",\"name\":\"%s\",\"eact\":-1,\"month\":%d,\"sact\":%d,\"year\":%d,\"longitude\":0,\"day\":%d,\"force\":0,\"latitude\":0,\"emin\":0\x7d\x7d\x7d"

/-- Modelled from the spec: the template `{"schedule":{"delete_rule":{"id":"%s"}}}`. -/
def DELETE_SCHEDULE_RULE : String := "\x7b\"schedule\":\x7b\"delete_rule\":\x7b\"id\":\"%s\"\x7d\x7d\x7d"

/-- Modelled from the spec: the command text `{"schedule":{"delete_all_rules":null,"erase_runtime_stat":null}}`. -/
def DELETE_ALL_SCHEDULE_RULE : String :=
  "\x7b\"schedule\":\x7b\"delete_all_rules\":null,\"erase_runtime_stat\":null\x7d\x7d"

/-- Modelled from the spec: the type `TimeOption` of the schedule builders, an integer code. -/
abbrev TimeOption := Int

/-- Modelled from the spec: the type `Action` of the schedule builders, an integer code. -/
abbrev Action := Int

/-- Modelled from the spec: the time option of a rule that fires at a time of day. -/
def NONE : TimeOption := 0

/-- Modelled from the spec: the time option of a rule that fires at sunrise. -/
def SUNRISE : TimeOption := 1

/-- Modelled from the spec: the time option of a rule that fires at sunset. -/
def SUNSET : TimeOption := 2

/-- Modelled from the spec: the repeat flag of a non-repeating rule. -/
def OFF : Int := 0

/-- Modelled from the spec: the repeat flag of a repeating rule. -/
def ON : Int := 1

/-- Modelled from the spec: the type `Days`, the seven weekday flags of a rule
(section 4.4, "a 7-element weekday flag array"). -/
structure Days where
  flags : List Int
  seven : flags.length = 7

/-- The flags separated by commas. -/
def joinFlags : List Int → List Char
  | [] => []
  | [a] => itoa a
  | a :: b :: rest => itoa a ++ ',' :: joinFlags (b :: rest)

/-- Modelled from the spec: the method `Days.String`, which renders the flags
as a bracketed, comma-separated array such as `[0,0,0,0,0,0,0]`. -/
def Days.String (d : Days) : String :=
  String.mk ('[' :: (joinFlags d.flags ++ [']']))

/-! ## The response document

The type `Response` is declared in a file of the package other than
`hs100.go`; the fields are those the accessors read, and the leaves that
section 6 of the specification lists for the commands the accessors send. -/

/-- A leaf that carries a status code and a status message only. -/
structure Status where
  ErrorCode : Int := 0
  ErrorMessage : String := ""
deriving DecidableEq, Repr

/-- Modelled from the spec: the leaf `system/get_sysinfo`. -/
structure Info where
  ErrorCode : Int := 0
  Alias : String := ""
  Model : String := ""
  DeviceID : String := ""
  HardwareID : String := ""
  SoftwareVersion : String := ""
  HardwareVersion : String := ""
  RelayState : Int := 0
  RSSI : Int := 0
  LedOff : Int := 0
deriving DecidableEq, Repr

/-- Modelled from the spec: the module `system`. `SetState` is the leaf
`set_relay_state`, `SetAlias` is `set_dev_alias`; the source reads neither
`SetLedOff`, `Reboot` nor `Reset`. -/
structure SystemLeaves where
  Info : Option Info := none
  SetAlias : Status := {}
  SetState : Status := {}
  SetLedOff : Status := {}
  Reboot : Status := {}
  Reset : Status := {}
deriving DecidableEq, Repr

/-- Modelled from the spec: the leaf `time/get_timezone`. -/
structure GetTimeZone where
  ErrorCode : Int := 0
  Index : Int := 0
deriving DecidableEq, Repr

/-- Modelled from the spec: the leaf `time/get_time`. -/
structure GetTime where
  ErrorCode : Int := 0
  Year : Int := 0
  Month : Int := 0
  Day : Int := 0
  Hour : Int := 0
  Minutes : Int := 0
  Seconds : Int := 0
deriving DecidableEq, Repr

/-- Modelled from the spec: the module `time`. -/
structure TimeLeaves where
  GetTimeZone : GetTimeZone := {}
  GetTime : GetTime := {}
  SetTimeZone : Status := {}
deriving DecidableEq, Repr

/-- Modelled from the spec: an access point of `netif/get_scaninfo`. -/
structure AP where
  SSID : String := ""
  KeyType : Int := 0
deriving DecidableEq, Repr

/-- Modelled from the spec: the leaf `netif/get_scaninfo`. -/
structure GetScanInfo where
  ErrorCode : Int := 0
  ErrorMessage : String := ""
  List : List AP := []
deriving DecidableEq, Repr

/-- Modelled from the spec: the module `netif`. -/
structure NetIfLeaves where
  GetScanInfo : GetScanInfo := {}
  SetWifi : Status := {}
deriving DecidableEq, Repr

/-- Modelled from the spec: the leaf `cnCloud/get_info`. -/
structure CloudInfoLeaf where
  ErrorCode : Int := 0
  ErrorMessage : String := ""
  Username : String := ""
  Server : String := ""
  Binded : Int := 0
deriving DecidableEq, Repr

/-- Modelled from the spec: the module `cnCloud`. -/
structure CNCloudLeaves where
  Info : CloudInfoLeaf := {}
  SetServerUrl : Status := {}
  Bind : Status := {}
  Unbind : Status := {}
deriving DecidableEq, Repr

/-- Modelled from the spec: the result type of `CloudInfo`. -/
structure Cloud where
  Username : String := ""
  Server : String := ""
  Binded : Int := 0
deriving DecidableEq, Repr

/-- Modelled from the spec: the leaf `schedule/get_next_action`. -/
structure GetNextAction where
  ErrorCode : Int := 0
  ErrorMessage : String := ""
  RuleID : String := ""
  ScheduledTimeSecond : Int := 0
  Action : Int := 0
  Type' : Int := 0
deriving DecidableEq, Repr

/-- Modelled from the spec: the result type of `GetNextScheduledAction`. -/
structure NextAction where
  RuleID : String := ""
  ScheduledTimeSecond : Int := 0
  Action : Int := 0
  Type' : Int := 0
deriving DecidableEq, Repr

/-- Modelled from the spec: a rule record of `schedule/get_rules`. -/
structure Rule where
  ID : String := ""
  Name : String := ""
  WDay : List Int := []
  Enable : Int := 0
  Repeat : Int := 0
  Action : Int := 0
  TimeOpt : Int := 0
  Minutes : Int := 0
  Year : Int := 0
  Month : Int := 0
  Day : Int := 0
deriving DecidableEq, Repr

/-- Modelled from the spec: the leaf `schedule/get_rules`. -/
structure GetRules where
  ErrorCode : Int := 0
  ErrorMessage : String := ""
  List : List Rule := []
deriving DecidableEq, Repr

/-- Modelled from the spec: the leaf `schedule/add_rule`. -/
structure AddRule where
  ErrorCode : Int := 0
  ErrorMessage : String := ""
  ID : String := ""
deriving DecidableEq, Repr

/-- Modelled from the spec: the module `schedule`. -/
structure ScheduleLeaves where
  GetNextAction : GetNextAction := {}
  Rule : GetRules := {}
  AddRule : AddRule := {}
  EditRule : Status := {}
  DeleteRule : Status := {}
  DeleteAllRules : Status := {}
deriving DecidableEq, Repr

/-- Modelled from the spec: the type `Response`, one field for each module. The
value `{}` is the zero value `Response{}` that every accessor starts from. -/
structure Response where
  System : SystemLeaves := {}
  Time : TimeLeaves := {}
  NetIf : NetIfLeaves := {}
  CNCloud : CNCloudLeaves := {}
  Schedule : ScheduleLeaves := {}
deriving DecidableEq, Repr

/-! ## The environment of an accessor -/

/-- What an accessor calls outside `hs100.go`: the package function `exec`
(address and command in, response text and error out), `json.Unmarshal` into a
fresh `Response`, and `fmt.Println`. -/
structure Env (m : Type → Type) where
  exec : String → String → m (String × Option GoError)
  Unmarshal : String → Except GoError Response
  Println : String → m Unit

/-- The functions of package `time` that the source calls: `time.Time{}`,
`time.LoadLocation`, `time.Date` and the six wall-clock methods of a
`time.Time`. `Month` is the number of the month, which is what the conversion
`time.Month(n)` takes and what the verb `%d` prints. -/
structure TimePkg where
  Time : Type
  Location : Type
  zero : Time
  LoadLocation : String → Except GoError Location
  Date : Int → Int → Int → Int → Int → Int → Int → Location → Time
  Year : Time → Int
  Month : Time → Int
  Day : Time → Int
  Hour : Time → Int
  Minute : Time → Int
  Second : Time → Int

/-- The receiver type `HS100`. -/
structure HS100 where
  ip : String
deriving DecidableEq, Repr

/-- The constructor `NewHS100`. -/
def NewHS100 (ip : String) : HS100 := ⟨ip⟩

section Accessors

variable {m : Type → Type} [Monad m]

/-- The method `Info` (hs100.go, lines 14-26). -/
def HS100.Info (env : Env m) (p : HS100) : m (Option Info × Option GoError) := do
  match ← env.exec p.ip GET_INFO with
  | (_, some err) => pure (none, some err)
  | (data, none) =>
    match env.Unmarshal data with
    | .error err => pure (none, some err)
    | .ok r => pure (r.System.Info, none)

/-- The method `Reboot` (lines 29-31). -/
def HS100.Reboot (env : Env m) (p : HS100) : m (String × Option GoError) :=
  env.exec p.ip REBOOT

/-- The method `Reset` (lines 34-36). -/
def HS100.Reset (env : Env m) (p : HS100) : m (String × Option GoError) :=
  env.exec p.ip RESET

/-- The method `SetAlias` (lines 39-54). -/
def HS100.SetAlias (env : Env m) (p : HS100) (alias' : String) : m (Option GoError) := do
  match ← env.exec p.ip (Sprintf SET_ALIAS [.str alias']) with
  | (_, some err) => pure (some err)
  | (data, none) =>
    match env.Unmarshal data with
    | .error err => pure (some err)
    | .ok r =>
      if r.System.SetAlias.ErrorCode ≠ 0 then
        pure (some (Errorf "failed to set alias. Error code=%d" [.int r.System.SetAlias.ErrorCode]))
      else pure none

/-- The method `TurnOn` (lines 57-72). -/
def HS100.TurnOn (env : Env m) (p : HS100) : m (Option GoError) := do
  match ← env.exec p.ip TURN_ON with
  | (_, some err) => pure (some err)
  | (data, none) =>
    match env.Unmarshal data with
    | .error err => pure (some err)
    | .ok r =>
      if r.System.SetState.ErrorCode ≠ 0 then
        pure (some (Errorf "failed to turn the device off. Error code=%d" [.int r.System.SetState.ErrorCode]))
      else pure none

/-- The method `TurnOff` (lines 75-90). -/
def HS100.TurnOff (env : Env m) (p : HS100) : m (Option GoError) := do
  match ← env.exec p.ip TURN_OFF with
  | (_, some err) => pure (some err)
  | (data, none) =>
    match env.Unmarshal data with
    | .error err => pure (some err)
    | .ok r =>
      if r.System.SetState.ErrorCode ≠ 0 then
        pure (some (Errorf "failed to turn the device off. Error code=%d" [.int r.System.SetState.ErrorCode]))
      else pure none

/-- The method `TurnLedOn` (lines 93-108). -/
def HS100.TurnLedOn (env : Env m) (p : HS100) : m (Option GoError) := do
  match ← env.exec p.ip TURN_LED_ON with
  | (_, some err) => pure (some err)
  | (data, none) =>
    match env.Unmarshal data with
    | .error err => pure (some err)
    | .ok r =>
      if r.System.SetState.ErrorCode ≠ 0 then
        pure (some (Errorf "failed to turn the device off. Error code=%d" [.int r.System.SetState.ErrorCode]))
      else pure none

/-- The method `TurnLedOff` (lines 111-126). -/
def HS100.TurnLedOff (env : Env m) (p : HS100) : m (Option GoError) := do
  match ← env.exec p.ip TURN_LED_OFF with
  | (_, some err) => pure (some err)
  | (data, none) =>
    match env.Unmarshal data with
    | .error err => pure (some err)
    | .ok r =>
      if r.System.SetState.ErrorCode ≠ 0 then
        pure (some (Errorf "failed to turn the device off. Error code=%d" [.int r.System.SetState.ErrorCode]))
      else pure none

/-- The method `TimeZone` (lines 129-147). -/
def HS100.TimeZone (env : Env m) (p : HS100) : m (Int × Option GoError) := do
  match ← env.exec p.ip GET_TIMEZONE with
  | (_, some err) => pure (0, some err)
  | (data, none) =>
    match env.Unmarshal data with
    | .error err => pure (0, some err)
    | .ok r =>
      let tz := r.Time.GetTimeZone
      if tz.ErrorCode ≠ 0 then
        pure (0, some (Errorf "failed to get time zone. Error code=%d" [.int r.System.SetState.ErrorCode]))
      else pure (tz.Index, none)

/-- The method `Time` (lines 149-179). -/
def HS100.Time (T : TimePkg) (env : Env m) (p : HS100) : m (T.Time × Option GoError) := do
  match ← env.exec p.ip GET_TIME with
  | (_, some err) => pure (T.zero, some err)
  | (data, none) =>
    match env.Unmarshal data with
    | .error err => pure (T.zero, some err)
    | .ok r =>
      let t := r.Time.GetTime
      if t.ErrorCode ≠ 0 then
        pure (T.zero, some (Errorf "failed to get time. Error code=%d" [.int r.System.SetState.ErrorCode]))
      else
        match T.LoadLocation "EST" with
        | .error err =>
          pure (T.zero, some (Errorf "failed to get device timezone: %s" [.str err.msg]))
        | .ok loc =>
          let d := T.Date t.Year t.Month t.Day t.Hour t.Minutes t.Seconds 0 loc
          pure (d, none)

/-- The method `SetTimeZone` (lines 181-199). -/
def HS100.SetTimeZone (T : TimePkg) (env : Env m) (p : HS100) (t : T.Time) : m (Option GoError) := do
  let cmd := Sprintf SET_TIMEZONE
    [.int (T.Year t), .int (T.Month t), .int (T.Day t), .int (T.Hour t), .int (T.Minute t),
      .int (T.Second t), .int 18]
  match ← env.exec p.ip cmd with
  | (_, some err) => pure (some err)
  | (data, none) =>
    match env.Unmarshal data with
    | .error err => pure (some err)
    | .ok r =>
      if r.Time.SetTimeZone.ErrorCode ≠ 0 then
        pure (some (Errorf "failed to set timezone. Error code=%d, msg: %s"
          [.int r.Time.SetTimeZone.ErrorCode, .str r.Time.SetTimeZone.ErrorMessage]))
      else pure none

/-- The method `ScanWifi` (lines 201-217). -/
def HS100.ScanWifi (env : Env m) (p : HS100) : m (List AP × Option GoError) := do
  match ← env.exec p.ip SCAN_WIFI with
  | (_, some err) => pure ([], some err)
  | (data, none) =>
    match env.Unmarshal data with
    | .error err => pure ([], some err)
    | .ok r =>
      if r.NetIf.GetScanInfo.ErrorCode ≠ 0 then
        pure ([], some (Errorf "failed to scan for wifi networks. Error code=%d, msg: %s"
          [.int r.NetIf.GetScanInfo.ErrorCode, .str r.NetIf.GetScanInfo.ErrorMessage]))
      else pure (r.NetIf.GetScanInfo.List, none)

/-- The method `SetWifi` (lines 219-236). -/
def HS100.SetWifi (env : Env m) (p : HS100) (ssid : String) (password : String) (keyType : Int) :
    m (Option GoError) := do
  let cmd := Sprintf SET_WIFI [.str ssid, .str password, .int keyType]
  match ← env.exec p.ip cmd with
  | (_, some err) => pure (some err)
  | (data, none) =>
    match env.Unmarshal data with
    | .error err => pure (some err)
    | .ok r =>
      if r.NetIf.SetWifi.ErrorCode ≠ 0 then
        pure (some (Errorf "failed to set wifi. Error code=%d, msg: %s"
          [.int r.NetIf.SetWifi.ErrorCode, .str r.NetIf.SetWifi.ErrorMessage]))
      else pure none

/-- The method `CloudInfo` (lines 239-262). -/
def HS100.CloudInfo (env : Env m) (p : HS100) : m (Option Cloud × Option GoError) := do
  match ← env.exec p.ip GET_CLOUD_INFO with
  | (_, some err) => pure (none, some err)
  | (data, none) =>
    env.Println data
    match env.Unmarshal data with
    | .error err => pure (none, some err)
    | .ok r =>
      if r.CNCloud.Info.ErrorCode ≠ 0 then
        pure (none, some (Errorf "failed to get cloud info. Error code=%d, msg: %s"
          [.int r.CNCloud.Info.ErrorCode, .str r.CNCloud.Info.ErrorMessage]))
      else
        let c : Cloud :=
          { Username := r.CNCloud.Info.Username
            Server := r.CNCloud.Info.Server
            Binded := r.CNCloud.Info.Binded }
        pure (some c, none)

/-- The method `SetCloudUrl` (lines 265-282). -/
def HS100.SetCloudUrl (env : Env m) (p : HS100) (url : String) : m (Option GoError) := do
  let cmd := Sprintf SET_CLOUD_URL [.str url]
  match ← env.exec p.ip cmd with
  | (_, some err) => pure (some err)
  | (data, none) =>
    match env.Unmarshal data with
    | .error err => pure (some err)
    | .ok r =>
      if r.CNCloud.SetServerUrl.ErrorCode ≠ 0 then
        pure (some (Errorf "failed to get cloud info. Error code=%d, msg: %s"
          [.int r.CNCloud.SetServerUrl.ErrorCode, .str r.CNCloud.SetServerUrl.ErrorMessage]))
      else pure none

/-- The method `CloudBind` (lines 285-302). -/
def HS100.CloudBind (env : Env m) (p : HS100) (username : String) (password : String) :
    m (Option GoError) := do
  let cmd := Sprintf CLOUD_BIND [.str username, .str password]
  match ← env.exec p.ip cmd with
  | (_, some err) => pure (some err)
  | (data, none) =>
    match env.Unmarshal data with
    | .error err => pure (some err)
    | .ok r =>
      if r.CNCloud.Bind.ErrorCode ≠ 0 then
        pure (some (Errorf "failed to bind to cloud. Error code=%d, msg: %s"
          [.int r.CNCloud.Bind.ErrorCode, .str r.CNCloud.Bind.ErrorMessage]))
      else pure none

/-- The method `CloudUnbind` (lines 305-321). -/
def HS100.CloudUnbind (env : Env m) (p : HS100) : m (Option GoError) := do
  match ← env.exec p.ip CLOUD_UNBIND with
  | (_, some err) => pure (some err)
  | (data, none) =>
    match env.Unmarshal data with
    | .error err => pure (some err)
    | .ok r =>
      if r.CNCloud.Unbind.ErrorCode ≠ 0 then
        pure (some (Errorf "failed to unbind devide from cloud. Error code=%d, msg: %s"
          [.int r.CNCloud.Unbind.ErrorCode, .str r.CNCloud.Unbind.ErrorMessage]))
      else pure none

/-- The method `GetNextScheduledAction` (lines 324-346). -/
def HS100.GetNextScheduledAction (env : Env m) (p : HS100) :
    m (Option NextAction × Option GoError) := do
  match ← env.exec p.ip GET_NEXT_SCHEDULE_ACTION with
  | (_, some err) => pure (none, some err)
  | (data, none) =>
    match env.Unmarshal data with
    | .error err => pure (none, some err)
    | .ok r =>
      if r.Schedule.GetNextAction.ErrorCode ≠ 0 then
        pure (none, some (Errorf "failed to get next scheduled action. Error code=%d, msg: %s"
          [.int r.Schedule.GetNextAction.ErrorCode, .str r.Schedule.GetNextAction.ErrorMessage]))
      else
        let resp : NextAction :=
          { RuleID := r.Schedule.GetNextAction.RuleID
            ScheduledTimeSecond := r.Schedule.GetNextAction.ScheduledTimeSecond
            Action := r.Schedule.GetNextAction.Action
            Type' := r.Schedule.GetNextAction.Type' }
        pure (some resp, none)

/-- The method `GetScheduleList` (lines 349-365). -/
def HS100.GetScheduleList (env : Env m) (p : HS100) : m (List Rule × Option GoError) := do
  match ← env.exec p.ip GET_SCHEDULE_RULES_LIST with
  | (_, some err) => pure ([], some err)
  | (data, none) =>
    match env.Unmarshal data with
    | .error err => pure ([], some err)
    | .ok r =>
      if r.Schedule.Rule.ErrorCode ≠ 0 then
        pure ([], some (Errorf "failed to get scheduled rules from device. Error code=%d, msg: %s"
          [.int r.Schedule.Rule.ErrorCode, .str r.Schedule.Rule.ErrorMessage]))
      else pure (r.Schedule.Rule.List, none)

/-- The method `addScheduleRule` (lines 380-403). -/
def HS100.addScheduleRule (env : Env m) (p : HS100) (timeOpt : TimeOption) (name : String)
    (days : Days) (action : Action) (minutes enable year month day : Int) :
    m (String × Option GoError) := do
  let weekdays := days.String
  let repeat' := OFF
  let repeat' := if weekdays ≠ "[0,0,0,0,0,0,0]" then ON else repeat'
  let cmd := Sprintf ADD_SCHEDULE_RULE
    [.int timeOpt, .str weekdays, .int minutes, .int enable, .int repeat', .str name, .int month,
      .int action, .int year, .int day]
  match ← env.exec p.ip cmd with
  | (_, some err) => pure ("", some err)
  | (data, none) =>
    match env.Unmarshal data with
    | .error err => pure ("", some err)
    | .ok r =>
      if r.Schedule.AddRule.ErrorCode ≠ 0 then
        pure ("", some (Errorf "failed to add scheduled rules. Error code=%d, msg: %s"
          [.int r.Schedule.AddRule.ErrorCode, .str r.Schedule.AddRule.ErrorMessage]))
      else pure (r.Schedule.AddRule.ID, none)

/-- The method `AddScheduleRule` (lines 368-370). -/
def HS100.AddScheduleRule (env : Env m) (p : HS100) (name : String) (days : Days)
    (action : Action) (minutes enable year month day : Int) : m (String × Option GoError) :=
  p.addScheduleRule env NONE name days action minutes enable year month day

/-- The method `AddSunSetScheduleRule` (lines 372-374). -/
def HS100.AddSunSetScheduleRule (env : Env m) (p : HS100) (name : String) (days : Days)
    (action : Action) (enable year month day : Int) : m (String × Option GoError) :=
  p.addScheduleRule env SUNSET name days action 0 enable year month day

/-- The method `AddSunRiseScheduleRule` (lines 376-378). -/
def HS100.AddSunRiseScheduleRule (env : Env m) (p : HS100) (name : String) (days : Days)
    (action : Action) (enable year month day : Int) : m (String × Option GoError) :=
  p.addScheduleRule env SUNRISE name days action 0 enable year month day

/-- The method `EditScheduleRule` (lines 406-429). -/
def HS100.EditScheduleRule (env : Env m) (p : HS100) (id : String) (timeOpt : TimeOption)
    (name : String) (days : Days) (action : Action) (minutes enable year month day : Int) :
    m (Option GoError) := do
  let weekdays := days.String
  let repeat' := OFF
  let repeat' := if weekdays ≠ "[0,0,0,0,0,0,0]" then ON else repeat'
  let cmd := Sprintf EDIT_SCHEDULE_RULE
    [.int timeOpt, .str weekdays, .int minutes, .int enable, .int repeat', .str id, .str name,
      .int month, .int action, .int year, .int day]
  match ← env.exec p.ip cmd with
  | (_, some err) => pure (some err)
  | (data, none) =>
    match env.Unmarshal data with
    | .error err => pure (some err)
    | .ok r =>
      if r.Schedule.EditRule.ErrorCode ≠ 0 then
        pure (some (Errorf "failed to edit scheduled rules. Error code=%d, msg: %s"
          [.int r.Schedule.EditRule.ErrorCode, .str r.Schedule.EditRule.ErrorMessage]))
      else pure none

/-- The method `DeleteScheduleRule` (lines 432-449). -/
def HS100.DeleteScheduleRule (env : Env m) (p : HS100) (id : String) : m (Option GoError) := do
  let cmd := Sprintf DELETE_SCHEDULE_RULE [.str id]
  match ← env.exec p.ip cmd with
  | (_, some err) => pure (some err)
  | (data, none) =>
    match env.Unmarshal data with
    | .error err => pure (some err)
    | .ok r =>
      if r.Schedule.DeleteRule.ErrorCode ≠ 0 then
        pure (some (Errorf "failed to edit scheduled rules. Error code=%d, msg: %s"
          [.int r.Schedule.DeleteRule.ErrorCode, .str r.Schedule.DeleteRule.ErrorMessage]))
      else pure none

/-- The method `DeleteAllScheduleRule` (lines 452-468). -/
def HS100.DeleteAllScheduleRule (env : Env m) (p : HS100) : m (Option GoError) := do
  match ← env.exec p.ip DELETE_ALL_SCHEDULE_RULE with
  | (_, some err) => pure (some err)
  | (data, none) =>
    match env.Unmarshal data with
    | .error err => pure (some err)
    | .ok r =>
      if r.Schedule.DeleteAllRules.ErrorCode ≠ 0 then
        pure (some (Errorf "failed to edit scheduled rules. Error code=%d, msg: %s"
          [.int r.Schedule.DeleteAllRules.ErrorCode, .str r.Schedule.DeleteAllRules.ErrorMessage]))
      else pure none

end Accessors

/-! ## Two ways of running an accessor -/

/-- The environment of a pure run: `exec` is a function of the address and the
command, and `fmt.Println` has no effect on the result. -/
def pureEnv (exec : String → String → String × Option GoError)
    (Unmarshal : String → Except GoError Response) : Env Id :=
  { exec := exec, Unmarshal := Unmarshal, Println := fun _ => pure () }

/-- A program that keeps the list of the calls of `exec` made so far, each one
an address and a command, oldest first. -/
abbrev Trace := StateM (List (String × String))

/-- The environment of a recorded run: every call of `exec` is appended to the
list of calls before its answer is handed back. -/
def recordingEnv (exec : String → String → String × Option GoError)
    (Unmarshal : String → Except GoError Response) : Env Trace :=
  { exec := fun ip cmd calls => (exec ip cmd, calls ++ [(ip, cmd)])
    Unmarshal := Unmarshal
    Println := fun _ => pure () }

/-! ## JSON documents

The grammar of RFC 8259 as package `encoding/json` reads it, used to say what
a command text denotes. -/

/-- A JSON value; a number keeps the characters of its literal. -/
inductive JSON where
  | null
  | bool (b : Bool)
  | num (literal : List Char)
  | str (s : String)
  | arr (items : List JSON)
  | obj (members : List (String × JSON))
deriving Repr

/-- The four blank characters of JSON. -/
def isSpace (c : Char) : Bool :=
  c = ' ' || c = '\t' || c = '\r' || c = '\n'

/-- Drops leading blanks. -/
def skipSpace : List Char → List Char
  | [] => []
  | c :: cs => if isSpace c then skipSpace cs else c :: cs

/-- The value of a hexadecimal digit. -/
def hexVal (c : Char) : Option Nat :=
  if '0' ≤ c ∧ c ≤ '9' then some (c.toNat - 48)
  else if 'a' ≤ c ∧ c ≤ 'f' then some (c.toNat - 87)
  else if 'A' ≤ c ∧ c ≤ 'F' then some (c.toNat - 55)
  else none

/-- The character a one-letter escape stands for. -/
def simpleEscape (c : Char) : Option Char :=
  if c = '"' then some '"'
  else if c = '\\' then some '\\'
  else if c = '/' then some '/'
  else if c = 'b' then some (Char.ofNat 8)
  else if c = 'f' then some (Char.ofNat 12)
  else if c = 'n' then some '\n'
  else if c = 'r' then some '\r'
  else if c = 't' then some '\t'
  else none

/-- Puts one more item in front of the items read so far. -/
def consItem {α β : Type} (a : α) : Option (List α × β) → Option (List α × β)
  | none => none
  | some (as, rest) => some (a :: as, rest)

/-- Reads the body of a string literal, the opening quote already consumed, up
to and including the closing quote. An item is a character or the 16-bit unit
of a `\u` escape. Characters below U+0020 are not allowed unescaped. -/
def readString : List Char → Option (List (Char ⊕ Nat) × List Char)
  | [] => none
  | c :: cs =>
    if c = '"' then some ([], cs)
    else if c = '\\' then
      match cs with
      | [] => none
      | e :: cs' =>
        if e = 'u' then
          match cs' with
          | h1 :: h2 :: h3 :: h4 :: rest =>
            match hexVal h1, hexVal h2, hexVal h3, hexVal h4 with
            | some a, some b, some c, some d =>
              consItem (Sum.inr (((a * 16 + b) * 16 + c) * 16 + d)) (readString rest)
            | _, _, _, _ => none
          | _ => none
        else
          match simpleEscape e with
          | none => none
          | some ch => consItem (Sum.inl ch) (readString cs')
    else if c.toNat < 32 then none
    else consItem (Sum.inl c) (readString cs)

/-- Turns the items of a string literal into characters: a high surrogate
followed by a low surrogate is one character, any other surrogate is U+FFFD. -/
def combineUnits : List (Char ⊕ Nat) → List Char
  | [] => []
  | Sum.inl c :: rest => c :: combineUnits rest
  | [Sum.inr u] =>
    if u < 55296 ∨ 57344 ≤ u then [Char.ofNat u] else [Char.ofNat 65533]
  | Sum.inr u :: Sum.inl c :: rest =>
    if u < 55296 ∨ 57344 ≤ u then Char.ofNat u :: c :: combineUnits rest
    else Char.ofNat 65533 :: c :: combineUnits rest
  | Sum.inr u :: Sum.inr v :: rest =>
    if u < 55296 ∨ 57344 ≤ u then Char.ofNat u :: combineUnits (Sum.inr v :: rest)
    else if u < 56320 ∧ 56320 ≤ v ∧ v < 57344 then
      Char.ofNat (65536 + (u - 55296) * 1024 + (v - 56320)) :: combineUnits rest
    else Char.ofNat 65533 :: combineUnits (Sum.inr v :: rest)

/-- Splits off the leading decimal digits. -/
def takeDigits : List Char → List Char × List Char
  | [] => ([], [])
  | c :: cs =>
    if c.isDigit then ((takeDigits cs).1.cons c, (takeDigits cs).2) else ([], c :: cs)

/-- Reads at least one digit. -/
def readDigits (cs : List Char) : Option (List Char × List Char) :=
  match takeDigits cs with
  | ([], _) => none
  | (ds, rest) => some (ds, rest)

/-- Reads the optional exponent of a number, `seen` being the literal so far. -/
def readExponent (seen : List Char) (cs : List Char) : Option (List Char × List Char) :=
  match cs with
  | e :: rest =>
    if e = 'e' ∨ e = 'E' then
      match rest with
      | s :: rest' =>
        if s = '+' ∨ s = '-' then
          match readDigits rest' with
          | none => none
          | some (ds, tail) => some (seen ++ e :: s :: ds, tail)
        else
          match readDigits rest with
          | none => none
          | some (ds, tail) => some (seen ++ e :: ds, tail)
      | [] => none
    else some (seen, cs)
  | [] => some (seen, cs)

/-- Reads the optional fraction and exponent of a number. -/
def readFraction (seen : List Char) (cs : List Char) : Option (List Char × List Char) :=
  match cs with
  | d :: rest =>
    if d = '.' then
      match readDigits rest with
      | none => none
      | some (ds, tail) => readExponent (seen ++ d :: ds) tail
    else readExponent seen cs
  | [] => some (seen, cs)

/-- Reads the integer part of a number after the sign: a lone `0`, or a digit
from 1 to 9 followed by digits. -/
def readInteger (sign : List Char) (cs : List Char) : Option (List Char × List Char) :=
  match cs with
  | d :: rest =>
    if d = '0' then readFraction (sign ++ [d]) rest
    else if d.isDigit then readFraction (sign ++ d :: (takeDigits rest).1) (takeDigits rest).2
    else none
  | [] => none

/-- Reads a number literal. -/
def readNumber (cs : List Char) : Option (List Char × List Char) :=
  match cs with
  | c :: rest => if c = '-' then readInteger [c] rest else readInteger [] cs
  | [] => none

/-- Removes `word` from the front of the input. -/
def readWord (word : List Char) (cs : List Char) : Option (List Char) :=
  if word.isPrefixOf cs then some (cs.drop word.length) else none

mutual

/-- Reads one value. The first argument bounds the number of nested calls. -/
def parseValue : Nat → List Char → Option (JSON × List Char)
  | 0, _ => none
  | fuel + 1, cs =>
    match skipSpace cs with
    | [] => none
    | c :: rest =>
      if c = '\x7b' then
        match skipSpace rest with
        | [] => none
        | d :: rest' =>
          if d = '\x7d' then some (JSON.obj [], rest')
          else
            match parseMembers fuel (d :: rest') with
            | none => none
            | some (ms, tail) => some (JSON.obj ms, tail)
      else if c = '[' then
        match skipSpace rest with
        | [] => none
        | d :: rest' =>
          if d = ']' then some (JSON.arr [], rest')
          else
            match parseItems fuel (d :: rest') with
            | none => none
            | some (vs, tail) => some (JSON.arr vs, tail)
      else if c = '"' then
        match readString rest with
        | none => none
        | some (us, tail) => some (JSON.str (String.mk (combineUnits us)), tail)
      else if c = 't' then
        match readWord (chars "rue") rest with
        | none => none
        | some tail => some (JSON.bool true, tail)
      else if c = 'f' then
        match readWord (chars "alse") rest with
        | none => none
        | some tail => some (JSON.bool false, tail)
      else if c = 'n' then
        match readWord (chars "ull") rest with
        | none => none
        | some tail => some (JSON.null, tail)
      else
        match readNumber (c :: rest) with
        | none => none
        | some (lit, tail) => some (JSON.num lit, tail)

/-- Reads the members of an object, the opening brace already consumed, up to
and including the closing brace. -/
def parseMembers : Nat → List Char → Option (List (String × JSON) × List Char)
  | 0, _ => none
  | fuel + 1, cs =>
    match skipSpace cs with
    | [] => none
    | q :: rest =>
      if q = '"' then
        match readString rest with
        | none => none
        | some (us, afterKey) =>
          match skipSpace afterKey with
          | [] => none
          | colon :: afterColon =>
            if colon = ':' then
              match parseValue fuel afterColon with
              | none => none
              | some (v, afterValue) =>
                match skipSpace afterValue with
                | [] => none
                | sep :: tail =>
                  if sep = '\x7d' then some ([(String.mk (combineUnits us), v)], tail)
                  else if sep = ',' then
                    match parseMembers fuel tail with
                    | none => none
                    | some (ms, tail') => some ((String.mk (combineUnits us), v) :: ms, tail')
                  else none
            else none
      else none

/-- Reads the items of an array, the opening bracket already consumed, up to
and including the closing bracket. -/
def parseItems : Nat → List Char → Option (List JSON × List Char)
  | 0, _ => none
  | fuel + 1, cs =>
    match parseValue fuel cs with
    | none => none
    | some (v, afterValue) =>
      match skipSpace afterValue with
      | [] => none
      | sep :: tail =>
        if sep = ']' then some ([v], tail)
        else if sep = ',' then
          match parseItems fuel tail with
          | none => none
          | some (vs, tail') => some (v :: vs, tail')
        else none

end

/-- Reads a whole document: one value and nothing but blanks after it. Every
nested call consumes a character, so the length of the text bounds them. -/
def parseJSON (text : String) : Option JSON :=
  match parseValue (text.length + 1) text.data with
  | none => none
  | some (v, rest) => if skipSpace rest = [] then some v else none

/-- The member of an object with the given key, the last one if the key is repeated. -/
def JSON.member (key : String) : JSON → Option JSON
  | JSON.obj ms => (ms.reverse.lookup key)
  | _ => none

/-- The argument `arg` of the command `module`/`action` in a command
document `{module: {action: {arg: value}}}`. -/
def commandArgument (text : String) (module action arg : String) : Option JSON :=
  match parseJSON text with
  | none => none
  | some doc =>
    match doc.member module with
    | none => none
    | some mod =>
      match mod.member action with
      | none => none
      | some act => act.member arg

/-- A character that a JSON string literal holds as it stands: not the quote,
not the backslash, not a control character below U+0020. -/
def plainChar (c : Char) : Bool :=
  c ≠ '"' && c ≠ '\\' && decide (32 ≤ c.toNat)

/-- A string made of plain characters only. -/
def plainText (s : String) : Prop :=
  ∀ c ∈ s.data, plainChar c = true

instance plainText.decidable (s : String) : Decidable (plainText s) :=
  inferInstanceAs (Decidable (∀ c ∈ s.data, plainChar c = true))

/-- The commands of the calls of `exec` that a recorded run makes, oldest first. -/
def commandsOf {α : Type} (prog : Trace α) : List String :=
  (prog.run []).2.map Prod.snd

/-! ## Sample device replies and a sample clock -/

/-- The reply `{}`, a well-formed document without any leaf. -/
def emptyReply : String := "\x7b\x7d"

/-- The reply `{"system":{"reboot":{"err_code":0}}}`. -/
def rebootAccepted : String := "\x7b\"system\":\x7b\"reboot\":\x7b\"err_code\":0\x7d\x7d\x7d"

/-- The reply `{"system":{"reboot":{"err_code":-1}}}`. -/
def rebootRejected : String := "\x7b\"system\":\x7b\"reboot\":\x7b\"err_code\":-1\x7d\x7d\x7d"

/-- The reply `{"system":{"reset":{"err_code":-1}}}`. -/
def resetRejected : String := "\x7b\"system\":\x7b\"reset\":\x7b\"err_code\":-1\x7d\x7d\x7d"

/-- The reply `{"system":{"get_sysinfo":{"err_code":-1}}}`. -/
def sysinfoRejected : String := "\x7b\"system\":\x7b\"get_sysinfo\":\x7b\"err_code\":-1\x7d\x7d\x7d"

/-- The reply `{"system":{"set_relay_state":{"err_code":0}}}`, the literal response of section 6. -/
def relayAccepted : String := "\x7b\"system\":\x7b\"set_relay_state\":\x7b\"err_code\":0\x7d\x7d\x7d"

/-- The reply `{"system":{"set_relay_state":{"err_code":-1}}}`. -/
def relayRejected : String := "\x7b\"system\":\x7b\"set_relay_state\":\x7b\"err_code\":-1\x7d\x7d\x7d"

/-- The reply `{"system":{"set_led_off":{"err_code":-1}}}`. -/
def ledRejected : String := "\x7b\"system\":\x7b\"set_led_off\":\x7b\"err_code\":-1\x7d\x7d\x7d"

/-- The reply `{"time":{"get_timezone":{"err_code":-3}}}`. -/
def timezoneRejected : String := "\x7b\"time\":\x7b\"get_timezone\":\x7b\"err_code\":-3\x7d\x7d\x7d"

/-- The reply `{"time":{"get_time":{"err_code":-3}}}`. -/
def timeRejected : String := "\x7b\"time\":\x7b\"get_time\":\x7b\"err_code\":-3\x7d\x7d\x7d"

/-- The reply `{"time":{"get_time":{"err_code":-3}},"system":{"set_relay_state":{"err_code":5}}}`,
which carries the same `time/get_time` leaf as `timeRejected`. -/
def timeRejectedWithRelay : String :=
  "\x7b\"time\":\x7b\"get_time\":\x7b\"err_code\":-3\x7d\x7d,\"system\":\x7b\"set_relay_state\":\x7b\"err_code\":5\x7d\x7d\x7d"

/-- The reply `{"time":{"get_time":{"year":2024,"month":5,"mday":17,"hour":9,"min":30,"sec":15,"err_code":0}}}`. -/
def timeAccepted : String :=
  "\x7b\"time\":\x7b\"get_time\":\x7b\"year\":2024,\"month\":5,\"mday\":17,\"hour\":9,\"min\":30,\"sec\":15,\"err_code\":0\x7d\x7d\x7d"

/-- Modelled from the spec: the `Response` that `json.Unmarshal` fills from each
of the sample replies, the status code being the member `err_code` of a leaf
(section 6) and every leaf that the text does not mention keeping its zero
value. -/
def sampleReplies : List (String × Response) :=
  [ (emptyReply, {}),
    (rebootAccepted, {}),
    (rebootRejected, { System := { Reboot := { ErrorCode := -1 } } }),
    (resetRejected, { System := { Reset := { ErrorCode := -1 } } }),
    (sysinfoRejected, { System := { Info := some { ErrorCode := -1 } } }),
    (relayAccepted, {}),
    (relayRejected, { System := { SetState := { ErrorCode := -1 } } }),
    (ledRejected, { System := { SetLedOff := { ErrorCode := -1 } } }),
    (timezoneRejected, { Time := { GetTimeZone := { ErrorCode := -3 } } }),
    (timeRejected, { Time := { GetTime := { ErrorCode := -3 } } }),
    (timeRejectedWithRelay,
      { Time := { GetTime := { ErrorCode := -3 } }, System := { SetState := { ErrorCode := 5 } } }),
    (timeAccepted,
      { Time := { GetTime :=
          { Year := 2024, Month := 5, Day := 17, Hour := 9, Minutes := 30, Seconds := 15 } } }) ]

/-- Decoding restricted to the sample replies; it is used on those texts only,
and reports every other text as undecodable. -/
def decodeSample (text : String) : Except GoError Response :=
  match sampleReplies.lookup text with
  | some r => .ok r
  | none => .error ⟨"invalid character looking for beginning of value"⟩

/-- A device that answers every command with the same text and no error. -/
def answering (text : String) : String → String → String × Option GoError :=
  fun _ _ => (text, none)

/-- A transport that fails on every command with the error `e`, handing back
the text `partialText` read before the failure. -/
def failing (partialText : String) (e : GoError) : String → String → String × Option GoError :=
  fun _ _ => (partialText, some e)

/-- A wall-clock reading together with the name of its location. -/
structure WallClock where
  year : Int
  month : Int
  day : Int
  hour : Int
  minute : Int
  second : Int
  nsec : Int
  location : String
deriving DecidableEq, Repr

/-- A sample of package `time` for in-range fields: `time.Date` stores the
fields it is given and every location loads. -/
def wallClockPkg : TimePkg :=
  { Time := WallClock
    Location := String
    zero := ⟨1, 1, 1, 0, 0, 0, 0, "UTC"⟩
    LoadLocation := fun name => .ok name
    Date := fun y mo d h mi s ns loc => ⟨y, mo, d, h, mi, s, ns, loc⟩
    Year := fun t => t.year
    Month := fun t => t.month
    Day := fun t => t.day
    Hour := fun t => t.hour
    Minute := fun t => t.minute
    Second := fun t => t.second }

/-- A reading of 17 May 2024, 09:30:15, in the location `EST`. -/
def morningEST : WallClock := ⟨2024, 5, 17, 9, 30, 15, 0, "EST"⟩

/-- The same wall-clock reading in the location `Asia/Tokyo`. -/
def morningTokyo : WallClock := ⟨2024, 5, 17, 9, 30, 15, 0, "Asia/Tokyo"⟩

/-- A rule for no weekday. -/
def noDays : Days := ⟨[0, 0, 0, 0, 0, 0, 0], rfl⟩

/-- A rule for the second day of the week only. -/
def oneDay : Days := ⟨[0, 1, 0, 0, 0, 0, 0], rfl⟩

/-- A plug at a sample address. -/
def samplePlug : HS100 := NewHS100 "192.168.0.10"

/-- A sample transport error. -/
def timeoutError : GoError := ⟨"dial tcp 192.168.0.10:9999: i/o timeout"⟩

/-! ## Predicates of the statements -/

/-- The recorded run `prog` passes a failure of `exec` through: if `exec`
fails with `e` on the command `cmd` at the address `ip`, then the run returns
`result` after calling `exec` exactly once, with that address and command. -/
def failurePassed {α : Type} (exec : String → String → String × Option GoError)
    (prog : Trace α) (ip cmd : String) (e : GoError) (result : α) : Prop :=
  (exec ip cmd).2 = some e → prog.run [] = (result, [(ip, cmd)])

/-- The repeat flag as section 4.4 of the specification derives it from the
weekday flags: `OFF` when all of them are zero, `ON` otherwise. -/
def derivedRepeat (days : Days) : Int :=
  if ∀ f ∈ days.flags, f = 0 then OFF else ON

/-! # Properties -/

/-! ## Power and LED switches -/

/-- C1. `TurnOn` and `TurnOff` return the nil error exactly when `exec`
returned no error, the text it returned decodes into a `Response`, and the
status code of the decoded `system/set_relay_state` leaf is 0; in every other
case the error is not nil. -/
theorem TurnOn_TurnOff_nil_iff (exec : String → String → String × Option GoError)
    (Unmarshal : String → Except GoError Response) (p : HS100) :
    (Id.run (p.TurnOn (pureEnv exec Unmarshal)) = none ↔
      (exec p.ip TURN_ON).2 = none ∧
        ∃ r, Unmarshal (exec p.ip TURN_ON).1 = .ok r ∧ r.System.SetState.ErrorCode = 0) ∧
    (Id.run (p.TurnOff (pureEnv exec Unmarshal)) = none ↔
      (exec p.ip TURN_OFF).2 = none ∧
        ∃ r, Unmarshal (exec p.ip TURN_OFF).1 = .ok r ∧ r.System.SetState.ErrorCode = 0) := by
  constructor
  · simp only [HS100.TurnOn, pureEnv, Id.run, bind, pure]
    rcases exec p.ip TURN_ON with ⟨data, _ | e⟩
    · cases hu : Unmarshal data with
      | error err => simp [hu]
      | ok r => by_cases hc : r.System.SetState.ErrorCode = 0 <;> simp [hu, hc]
    · simp
  · simp only [HS100.TurnOff, pureEnv, Id.run, bind, pure]
    rcases exec p.ip TURN_OFF with ⟨data, _ | e⟩
    · cases hu : Unmarshal data with
      | error err => simp [hu]
      | ok r => by_cases hc : r.System.SetState.ErrorCode = 0 <;> simp [hu, hc]
    · simp

/-- C2, the code at the failing input. The reply
`{"system":{"set_led_off":{"err_code":-1}}}` carries a nonzero status code in
its `system/set_led_off` leaf, and `TurnLedOn` and `TurnLedOff` both return the
nil error on it: the status code they test is that of `system/set_relay_state`. -/
theorem TurnLedOn_TurnLedOff_miss_led_status :
    (∃ r, decodeSample ledRejected = .ok r ∧ r.System.SetLedOff.ErrorCode ≠ 0) ∧
    Id.run (samplePlug.TurnLedOn (pureEnv (answering ledRejected) decodeSample)) = none ∧
    Id.run (samplePlug.TurnLedOff (pureEnv (answering ledRejected) decodeSample)) = none ∧
    Id.run (samplePlug.TurnLedOn (pureEnv (answering relayRejected) decodeSample)) =
      some ⟨"failed to turn the device off. Error code=-1"⟩ := by
  refine ⟨⟨_, rfl, by decide⟩, by decide, by decide, by decide⟩

/-! ## Info, Reboot and Reset -/

/-- C4, counterexample. Each of the three sample replies carries the status
code -1 in the leaf of its command, and `Reboot`, `Reset` and `Info` return
the nil error on it. -/
theorem Reboot_Reset_Info_accept_rejected_leaf :
    ((∃ r, decodeSample rebootRejected = .ok r ∧ r.System.Reboot.ErrorCode ≠ 0) ∧
      Id.run (samplePlug.Reboot (pureEnv (answering rebootRejected) decodeSample)) =
        (rebootRejected, none)) ∧
    ((∃ r, decodeSample resetRejected = .ok r ∧ r.System.Reset.ErrorCode ≠ 0) ∧
      Id.run (samplePlug.Reset (pureEnv (answering resetRejected) decodeSample)) =
        (resetRejected, none)) ∧
    ((∃ r i, decodeSample sysinfoRejected = .ok r ∧ r.System.Info = some i ∧ i.ErrorCode ≠ 0) ∧
      Id.run (samplePlug.Info (pureEnv (answering sysinfoRejected) decodeSample)) =
        (some { ErrorCode := -1 }, none)) := by
  refine ⟨⟨⟨_, rfl, by decide⟩, rfl⟩, ⟨⟨_, rfl, by decide⟩, rfl⟩, ⟨⟨_, _, rfl, rfl, by decide⟩, ?_⟩⟩
  decide

/-- C4, amended. `Reboot` and `Reset` return the text and the error of `exec`
unchanged, without decoding the text; `Info` returns the nil error exactly when
`exec` returned no error and the text decodes, and then hands back the decoded
`system/get_sysinfo` leaf as it is. None of the three inspects a status code,
and the reply `{"system":{"reboot":{"err_code":0}}}` yields success. -/
theorem Info_Reboot_Reset_without_status_check
    (exec : String → String → String × Option GoError)
    (Unmarshal : String → Except GoError Response) (p : HS100) :
    Id.run (p.Reboot (pureEnv exec Unmarshal)) = exec p.ip REBOOT ∧
    Id.run (p.Reset (pureEnv exec Unmarshal)) = exec p.ip RESET ∧
    ((Id.run (p.Info (pureEnv exec Unmarshal))).2 = none ↔
      (exec p.ip GET_INFO).2 = none ∧ ∃ r, Unmarshal (exec p.ip GET_INFO).1 = .ok r) ∧
    (∀ r, (exec p.ip GET_INFO).2 = none → Unmarshal (exec p.ip GET_INFO).1 = .ok r →
      Id.run (p.Info (pureEnv exec Unmarshal)) = (r.System.Info, none)) ∧
    Id.run (p.Reboot (pureEnv (answering rebootAccepted) Unmarshal)) = (rebootAccepted, none) := by
  refine ⟨rfl, rfl, ?_, ?_, rfl⟩
  · simp only [HS100.Info, pureEnv, Id.run, bind, pure]
    rcases exec p.ip GET_INFO with ⟨data, _ | e⟩
    · cases hu : Unmarshal data with
      | error err => simp [hu]
      | ok r => simp [hu]
    · simp
  · intro r h1 h2
    simp only [HS100.Info, pureEnv, Id.run, bind, pure]
    revert h1 h2
    rcases exec p.ip GET_INFO with ⟨data, _ | e⟩
    · intro _ h2
      simp only at h2
      simp [h2]
    · intro h1
      simp at h1

/-- C4, amended, at a sample reply: `Info` on the reply
`{"system":{"get_sysinfo":{"err_code":-1}}}`. -/
theorem Info_Reboot_Reset_without_status_check_witness :
    Id.run (samplePlug.Info (pureEnv (answering sysinfoRejected) decodeSample)) =
      (some { ErrorCode := -1 }, none) :=
  (Info_Reboot_Reset_without_status_check (answering sysinfoRejected) decodeSample
    samplePlug).2.2.2.1 { System := { Info := some { ErrorCode := -1 } } } rfl rfl

/-! ## A leaf missing from the reply -/

/-- C5, counterexample. The reply `{}` decodes into the zero `Response`; on it
`Info` returns a nil `*Info` with the nil error and `TurnOn` returns the nil
error. -/
theorem Info_TurnOn_silent_on_missing_leaf :
    decodeSample emptyReply = .ok {} ∧
    Id.run (samplePlug.Info (pureEnv (answering emptyReply) decodeSample)) = (none, none) ∧
    Id.run (samplePlug.TurnOn (pureEnv (answering emptyReply) decodeSample)) = none := by
  refine ⟨rfl, by decide, by decide⟩

/-- C5, amended. A leaf missing from a well-formed reply is read as its zero
value and no error is raised for it: when `exec` returned no error and the text
decodes into a response without a `system/get_sysinfo` leaf, `Info` returns a
nil `*Info` with the nil error; when the decoded `system/set_relay_state` leaf
is the zero value, `TurnOn` returns the nil error. -/
theorem missing_leaf_read_as_zero_value (exec : String → String → String × Option GoError)
    (Unmarshal : String → Except GoError Response) (p : HS100) (r : Response) :
    ((exec p.ip GET_INFO).2 = none → Unmarshal (exec p.ip GET_INFO).1 = .ok r →
      r.System.Info = none → Id.run (p.Info (pureEnv exec Unmarshal)) = (none, none)) ∧
    ((exec p.ip TURN_ON).2 = none → Unmarshal (exec p.ip TURN_ON).1 = .ok r →
      r.System.SetState = {} → Id.run (p.TurnOn (pureEnv exec Unmarshal)) = none) := by
  constructor
  · simp only [HS100.Info, pureEnv, Id.run, bind, pure]
    rcases exec p.ip GET_INFO with ⟨data, _ | e⟩
    · intro _ h2 h3
      simp only at h2
      simp [h2, h3]
    · intro h1
      simp at h1
  · simp only [HS100.TurnOn, pureEnv, Id.run, bind, pure]
    rcases exec p.ip TURN_ON with ⟨data, _ | e⟩
    · intro _ h2 h3
      simp only at h2
      simp [h2, h3]
    · intro h1
      simp at h1

/-- C5, amended, at the reply `{}`. -/
theorem missing_leaf_read_as_zero_value_witness :
    Id.run (samplePlug.Info (pureEnv (answering emptyReply) decodeSample)) = (none, none) ∧
    Id.run (samplePlug.TurnOn (pureEnv (answering emptyReply) decodeSample)) = none :=
  ⟨(missing_leaf_read_as_zero_value (answering emptyReply) decodeSample samplePlug {}).1
      rfl rfl rfl,
    (missing_leaf_read_as_zero_value (answering emptyReply) decodeSample samplePlug {}).2
      rfl rfl rfl⟩

/-! ## Transport failures -/

/-- C8, counterexample. A transport that fails with `timeoutError` after
having read the text `partial`: `Reboot` and `Reset` return that text next to
the error, not the zero value of their result, the empty string. -/
theorem Reboot_Reset_return_text_of_failed_exec :
    (samplePlug.Reboot (recordingEnv (failing "partial" timeoutError) decodeSample)).run [] =
      (("partial", some timeoutError), [(samplePlug.ip, REBOOT)]) ∧
    (samplePlug.Reset (recordingEnv (failing "partial" timeoutError) decodeSample)).run [] =
      (("partial", some timeoutError), [(samplePlug.ip, RESET)]) ∧
    ("partial", some timeoutError) ≠ (("", some timeoutError) : String × Option GoError) := by
  refine ⟨rfl, rfl, by decide⟩

/-- C8, amended. If `exec` fails with `e`, every accessor returns exactly `e`
after having called `exec` exactly once; the result next to `e` is the zero
value of its type for every accessor except `Reboot` and `Reset`, which hand
back the text that `exec` returned next to `e`. -/
theorem transport_failure_passed_through (exec : String → String → String × Option GoError)
    (Unmarshal : String → Except GoError Response) (T : TimePkg) (p : HS100) (e : GoError)
    (alias' ssid password url username id name : String) (t : T.Time) (days : Days)
    (timeOpt : TimeOption) (action : Action) (keyType minutes enable year month day : Int) :
    failurePassed exec (p.Info (recordingEnv exec Unmarshal)) p.ip GET_INFO e (none, some e) ∧
    failurePassed exec (p.Reboot (recordingEnv exec Unmarshal)) p.ip REBOOT e
      ((exec p.ip REBOOT).1, some e) ∧
    failurePassed exec (p.Reset (recordingEnv exec Unmarshal)) p.ip RESET e
      ((exec p.ip RESET).1, some e) ∧
    failurePassed exec (p.SetAlias (recordingEnv exec Unmarshal) alias') p.ip
      (Sprintf SET_ALIAS [.str alias']) e (some e) ∧
    failurePassed exec (p.TurnOn (recordingEnv exec Unmarshal)) p.ip TURN_ON e (some e) ∧
    failurePassed exec (p.TurnOff (recordingEnv exec Unmarshal)) p.ip TURN_OFF e (some e) ∧
    failurePassed exec (p.TurnLedOn (recordingEnv exec Unmarshal)) p.ip TURN_LED_ON e (some e) ∧
    failurePassed exec (p.TurnLedOff (recordingEnv exec Unmarshal)) p.ip TURN_LED_OFF e (some e) ∧
    failurePassed exec (p.TimeZone (recordingEnv exec Unmarshal)) p.ip GET_TIMEZONE e
      (0, some e) ∧
    failurePassed exec (p.Time T (recordingEnv exec Unmarshal)) p.ip GET_TIME e
      (T.zero, some e) ∧
    failurePassed exec (p.SetTimeZone T (recordingEnv exec Unmarshal) t) p.ip
      (Sprintf SET_TIMEZONE [.int (T.Year t), .int (T.Month t), .int (T.Day t), .int (T.Hour t),
        .int (T.Minute t), .int (T.Second t), .int 18]) e (some e) ∧
    failurePassed exec (p.ScanWifi (recordingEnv exec Unmarshal)) p.ip SCAN_WIFI e ([], some e) ∧
    failurePassed exec (p.SetWifi (recordingEnv exec Unmarshal) ssid password keyType) p.ip
      (Sprintf SET_WIFI [.str ssid, .str password, .int keyType]) e (some e) ∧
    failurePassed exec (p.CloudInfo (recordingEnv exec Unmarshal)) p.ip GET_CLOUD_INFO e
      (none, some e) ∧
    failurePassed exec (p.SetCloudUrl (recordingEnv exec Unmarshal) url) p.ip
      (Sprintf SET_CLOUD_URL [.str url]) e (some e) ∧
    failurePassed exec (p.CloudBind (recordingEnv exec Unmarshal) username password) p.ip
      (Sprintf CLOUD_BIND [.str username, .str password]) e (some e) ∧
    failurePassed exec (p.CloudUnbind (recordingEnv exec Unmarshal)) p.ip CLOUD_UNBIND e
      (some e) ∧
    failurePassed exec (p.GetNextScheduledAction (recordingEnv exec Unmarshal)) p.ip
      GET_NEXT_SCHEDULE_ACTION e (none, some e) ∧
    failurePassed exec (p.GetScheduleList (recordingEnv exec Unmarshal)) p.ip
      GET_SCHEDULE_RULES_LIST e ([], some e) ∧
    failurePassed exec
      (p.addScheduleRule (recordingEnv exec Unmarshal) timeOpt name days action minutes enable
        year month day) p.ip
      (Sprintf ADD_SCHEDULE_RULE [.int timeOpt, .str days.String, .int minutes, .int enable,
        .int (if days.String ≠ "[0,0,0,0,0,0,0]" then ON else OFF), .str name, .int month,
        .int action, .int year, .int day]) e ("", some e) ∧
    failurePassed exec
      (p.AddScheduleRule (recordingEnv exec Unmarshal) name days action minutes enable year month
        day) p.ip
      (Sprintf ADD_SCHEDULE_RULE [.int NONE, .str days.String, .int minutes, .int enable,
        .int (if days.String ≠ "[0,0,0,0,0,0,0]" then ON else OFF), .str name, .int month,
        .int action, .int year, .int day]) e ("", some e) ∧
    failurePassed exec
      (p.AddSunSetScheduleRule (recordingEnv exec Unmarshal) name days action enable year month
        day) p.ip
      (Sprintf ADD_SCHEDULE_RULE [.int SUNSET, .str days.String, .int 0, .int enable,
        .int (if days.String ≠ "[0,0,0,0,0,0,0]" then ON else OFF), .str name, .int month,
        .int action, .int year, .int day]) e ("", some e) ∧
    failurePassed exec
      (p.AddSunRiseScheduleRule (recordingEnv exec Unmarshal) name days action enable year month
        day) p.ip
      (Sprintf ADD_SCHEDULE_RULE [.int SUNRISE, .str days.String, .int 0, .int enable,
        .int (if days.String ≠ "[0,0,0,0,0,0,0]" then ON else OFF), .str name, .int month,
        .int action, .int year, .int day]) e ("", some e) ∧
    failurePassed exec
      (p.EditScheduleRule (recordingEnv exec Unmarshal) id timeOpt name days action minutes
        enable year month day) p.ip
      (Sprintf EDIT_SCHEDULE_RULE [.int timeOpt, .str days.String, .int minutes, .int enable,
        .int (if days.String ≠ "[0,0,0,0,0,0,0]" then ON else OFF), .str id, .str name,
        .int month, .int action, .int year, .int day]) e (some e) ∧
    failurePassed exec (p.DeleteScheduleRule (recordingEnv exec Unmarshal) id) p.ip
      (Sprintf DELETE_SCHEDULE_RULE [.str id]) e (some e) ∧
    failurePassed exec (p.DeleteAllScheduleRule (recordingEnv exec Unmarshal)) p.ip
      DELETE_ALL_SCHEDULE_RULE e (some e) := by
  refine ⟨?_, ?_, ?_, ?_, ?_, ?_, ?_, ?_, ?_, ?_, ?_, ?_, ?_, ?_, ?_, ?_, ?_, ?_, ?_, ?_, ?_, ?_,
    ?_, ?_, ?_, ?_⟩ <;>
  · intro h
    simp only [HS100.Info, HS100.Reboot, HS100.Reset, HS100.SetAlias, HS100.TurnOn, HS100.TurnOff,
      HS100.TurnLedOn, HS100.TurnLedOff, HS100.TimeZone, HS100.Time, HS100.SetTimeZone,
      HS100.ScanWifi, HS100.SetWifi, HS100.CloudInfo, HS100.SetCloudUrl, HS100.CloudBind,
      HS100.CloudUnbind, HS100.GetNextScheduledAction, HS100.GetScheduleList,
      HS100.addScheduleRule, HS100.AddScheduleRule, HS100.AddSunSetScheduleRule,
      HS100.AddSunRiseScheduleRule, HS100.EditScheduleRule, HS100.DeleteScheduleRule,
      HS100.DeleteAllScheduleRule, recordingEnv, StateT.run, bind, StateT.bind, pure,
      StateT.pure, List.nil_append]
    generalize exec p.ip _ = x at h ⊢
    obtain ⟨data, err⟩ := x
    simp only at h
    subst h
    rfl

/-- C8, amended, on a transport that fails with `timeoutError`: `TurnOn`,
`GetScheduleList` and `Reboot`. -/
theorem transport_failure_passed_through_witness :
    (samplePlug.TurnOn (recordingEnv (failing "partial" timeoutError) decodeSample)).run [] =
      (some timeoutError, [(samplePlug.ip, TURN_ON)]) ∧
    (samplePlug.GetScheduleList
        (recordingEnv (failing "partial" timeoutError) decodeSample)).run [] =
      (([], some timeoutError), [(samplePlug.ip, GET_SCHEDULE_RULES_LIST)]) ∧
    (samplePlug.Reboot (recordingEnv (failing "partial" timeoutError) decodeSample)).run [] =
      (("partial", some timeoutError), [(samplePlug.ip, REBOOT)]) :=
  have h := transport_failure_passed_through (failing "partial" timeoutError) decodeSample
    wallClockPkg samplePlug timeoutError "" "" "" "" "" "" "" wallClockPkg.zero
    ⟨[0, 0, 0, 0, 0, 0, 0], rfl⟩ NONE 0 0 0 0 0 0 0
  ⟨h.2.2.2.2.1 rfl, h.2.2.2.2.2.2.2.2.2.2.2.2.2.2.2.2.2.2.1 rfl, h.2.1 rfl⟩

/-! ## Decimal rendering -/

theorem digitChar_isDigit (n : Nat) (h : n < 10) : (digitChar n).isDigit = true := by
  interval_cases n <;> rfl

theorem digitChar_eq_zero (n : Nat) (h : n < 10) (h0 : digitChar n = '0') : n = 0 := by
  interval_cases n <;> first | rfl | exact absurd h0 (by decide)

/-- With enough fuel the digits start with a digit that is `0` only for the number 0. -/
theorem decimalAux_spec (fuel : Nat) : ∀ (n : Nat) (acc : List Char), n < fuel →
    ∃ d ds, decimalAux fuel n acc = d :: (ds ++ acc) ∧ d.isDigit = true ∧
      (∀ c ∈ ds, c.isDigit = true) ∧ (d = '0' → n = 0 ∧ ds = []) := by
  induction fuel with
  | zero => intro n acc h; omega
  | succ fuel ih =>
    intro n acc h
    by_cases hn : n < 10
    · refine ⟨digitChar n, [], ?_, digitChar_isDigit n hn, by simp, fun h0 => ⟨digitChar_eq_zero n hn h0, rfl⟩⟩
      simp [decimalAux, hn]
    · obtain ⟨d, ds, heq, hd, hds, h0⟩ := ih (n / 10) (digitChar (n % 10) :: acc) (by omega)
      refine ⟨d, ds ++ [digitChar (n % 10)], ?_, hd, ?_, ?_⟩
      · simp [decimalAux, hn, heq]
      · intro c hc
        rcases List.mem_append.1 hc with hc | hc
        · exact hds c hc
        · rw [List.mem_singleton.1 hc]
          exact digitChar_isDigit _ (Nat.mod_lt _ (by norm_num))
      · intro hz
        have := (h0 hz).1
        omega

theorem decimal_spec (n : Nat) :
    ∃ d ds, decimal n = d :: ds ∧ d.isDigit = true ∧
      (∀ c ∈ ds, c.isDigit = true) ∧ (d = '0' → n = 0 ∧ ds = []) := by
  obtain ⟨d, ds, heq, hd, hds, h0⟩ := decimalAux_spec (n + 1) n [] (by omega)
  exact ⟨d, ds, by simpa [decimal] using heq, hd, hds, h0⟩

/-- A rendering that starts with the character `0` is the rendering of 0 and has no other character. -/
theorem itoa_head_zero (a : Int) (r r' : List Char) (h : itoa a ++ r = '0' :: r') :
    a = 0 ∧ r = r' := by
  cases a with
  | ofNat n =>
    obtain ⟨d, ds, heq, _, _, h0⟩ := decimal_spec n
    simp only [itoa, heq, List.cons_append, List.cons.injEq] at h
    obtain ⟨hn, hds⟩ := h0 h.1
    subst hn hds
    exact ⟨rfl, by simpa using h.2⟩
  | negSucc n =>
    simp only [itoa, List.cons_append, List.cons.injEq] at h
    exact absurd h.1 (by decide)

/-- The weekday flags render as `[0,0,0,0,0,0,0]` exactly when all seven are zero. -/
theorem Days.String_eq_zeros_iff (days : Days) :
    days.String = "[0,0,0,0,0,0,0]" ↔ ∀ f ∈ days.flags, f = 0 := by
  obtain ⟨flags, seven⟩ := days
  match flags, seven with
  | [a, b, c, d, e, f, g], _ =>
    constructor
    · intro h
      have h' : '[' :: (joinFlags [a, b, c, d, e, f, g] ++ [']']) = chars "[0,0,0,0,0,0,0]" :=
        congrArg String.data h
      simp only [joinFlags, chars, List.append_assoc, List.cons_append, List.cons.injEq,
        true_and] at h'
      obtain ⟨ha, h'⟩ := itoa_head_zero a _ _ h'
      obtain ⟨hb, h'⟩ := itoa_head_zero b _ _ (List.cons.inj h').2
      obtain ⟨hc, h'⟩ := itoa_head_zero c _ _ (List.cons.inj h').2
      obtain ⟨hd, h'⟩ := itoa_head_zero d _ _ (List.cons.inj h').2
      obtain ⟨he, h'⟩ := itoa_head_zero e _ _ (List.cons.inj h').2
      obtain ⟨hf, h'⟩ := itoa_head_zero f _ _ (List.cons.inj h').2
      obtain ⟨hg, _⟩ := itoa_head_zero g _ _ (List.cons.inj h').2
      subst ha hb hc hd he hf hg
      simp
    · intro h
      simp only [List.mem_cons, List.mem_singleton, forall_eq_or_imp, forall_eq,
        List.not_mem_nil, IsEmpty.forall_iff, implies_true, and_true] at h
      obtain ⟨ha, hb, hc, hd, he, hf, hg⟩ := h
      subst ha hb hc hd he hf hg
      rfl

/-! ## Schedule rules -/

/-- C7. The command that `addScheduleRule` (hence `AddScheduleRule`,
`AddSunSetScheduleRule` and `AddSunRiseScheduleRule`) and `EditScheduleRule`
hand to `exec` is the template filled with the parameters and, in fifth place,
a repeat flag that is `OFF` when all seven weekday flags are zero and `ON` for
every other flag vector; the flags are all zero exactly when they render as
`[0,0,0,0,0,0,0]`, and the flag is computed from `days`, not from a parameter. -/
theorem repeat_flag_derived_from_weekdays (exec : String → String → String × Option GoError)
    (Unmarshal : String → Except GoError Response) (p : HS100) (id name : String) (days : Days)
    (timeOpt : TimeOption) (action : Action) (minutes enable year month day : Int) :
    commandsOf (p.addScheduleRule (recordingEnv exec Unmarshal) timeOpt name days action minutes
        enable year month day) =
      [Sprintf ADD_SCHEDULE_RULE [.int timeOpt, .str days.String, .int minutes, .int enable,
        .int (derivedRepeat days), .str name, .int month, .int action, .int year, .int day]] ∧
    commandsOf (p.AddScheduleRule (recordingEnv exec Unmarshal) name days action minutes enable
        year month day) =
      [Sprintf ADD_SCHEDULE_RULE [.int NONE, .str days.String, .int minutes, .int enable,
        .int (derivedRepeat days), .str name, .int month, .int action, .int year, .int day]] ∧
    commandsOf (p.AddSunSetScheduleRule (recordingEnv exec Unmarshal) name days action enable
        year month day) =
      [Sprintf ADD_SCHEDULE_RULE [.int SUNSET, .str days.String, .int 0, .int enable,
        .int (derivedRepeat days), .str name, .int month, .int action, .int year, .int day]] ∧
    commandsOf (p.AddSunRiseScheduleRule (recordingEnv exec Unmarshal) name days action enable
        year month day) =
      [Sprintf ADD_SCHEDULE_RULE [.int SUNRISE, .str days.String, .int 0, .int enable,
        .int (derivedRepeat days), .str name, .int month, .int action, .int year, .int day]] ∧
    commandsOf (p.EditScheduleRule (recordingEnv exec Unmarshal) id timeOpt name days action
        minutes enable year month day) =
      [Sprintf EDIT_SCHEDULE_RULE [.int timeOpt, .str days.String, .int minutes, .int enable,
        .int (derivedRepeat days), .str id, .str name, .int month, .int action, .int year,
        .int day]] ∧
    (derivedRepeat days = OFF ↔ ∀ f ∈ days.flags, f = 0) ∧
    (derivedRepeat days = ON ↔ ¬ ∀ f ∈ days.flags, f = 0) ∧
    ((∀ f ∈ days.flags, f = 0) ↔ days.String = "[0,0,0,0,0,0,0]") := by
  have hrep : (if days.String ≠ "[0,0,0,0,0,0,0]" then ON else OFF) = derivedRepeat days := by
    unfold derivedRepeat
    by_cases hz : ∀ f ∈ days.flags, f = 0
    · rw [if_pos hz, if_neg (not_not.2 ((Days.String_eq_zeros_iff days).2 hz))]
    · rw [if_neg hz, if_pos (fun hs => hz ((Days.String_eq_zeros_iff days).1 hs))]
  refine ⟨?_, ?_, ?_, ?_, ?_, ?_, ?_, (Days.String_eq_zeros_iff days).symm⟩
  iterate 5
    · rw [← hrep]
      simp only [commandsOf, HS100.addScheduleRule, HS100.AddScheduleRule,
        HS100.AddSunSetScheduleRule, HS100.AddSunRiseScheduleRule, HS100.EditScheduleRule,
        recordingEnv, StateT.run, bind, StateT.bind, pure, StateT.pure, List.nil_append]
      generalize exec p.ip _ = x
      obtain ⟨data, _ | err⟩ := x
      · simp only []
        cases Unmarshal data with
        | error e => rfl
        | ok r => simp only []; split <;> rfl
      · rfl
  · unfold derivedRepeat
    by_cases hz : ∀ f ∈ days.flags, f = 0
    · rw [if_pos hz]
      exact ⟨fun _ => hz, fun _ => rfl⟩
    · rw [if_neg hz]
      exact ⟨fun h => absurd h (by decide), fun h => absurd h hz⟩
  · unfold derivedRepeat
    by_cases hz : ∀ f ∈ days.flags, f = 0
    · rw [if_pos hz]
      exact ⟨fun h => absurd h (by decide), fun h => absurd hz h⟩
    · rw [if_neg hz]
      exact ⟨fun _ => hz, fun _ => rfl⟩

set_option maxRecDepth 8000 in
/-- C7 at a rule for no weekday and at a rule for one weekday: the commands
that `AddScheduleRule` hands to `exec` carry `"repeat":0` and `"repeat":1`. -/
theorem repeat_flag_derived_from_weekdays_witness :
    commandsOf (samplePlug.AddScheduleRule (recordingEnv (answering emptyReply) decodeSample)
        "lamp" noDays 1 1014 1 0 0 0) =
      ["\x7b\"schedule\":\x7b\"add_rule\":\x7b\"stime_opt\":0,\"wday\":[0,0,0,0,0,0,0],\"smin\":1014,\"enable\":1,\"repeat\":0,\"etime_opt\":-1,\"name\":\"lamp\",\"eact\":-1,\"month\":0,\"sact\":1,\"year\":0,\"longitude\":0,\"day\":0,\"force\":0,\"latitude\":0,\"emin\":0\x7d,\"set_overall_enable\":\x7b\"enable\":1\x7d\x7d\x7d"] ∧
    commandsOf (samplePlug.AddScheduleRule (recordingEnv (answering emptyReply) decodeSample)
        "lamp" oneDay 1 1014 1 0 0 0) =
      ["\x7b\"schedule\":\x7b\"add_rule\":\x7b\"stime_opt\":0,\"wday\":[0,1,0,0,0,0,0],\"smin\":1014,\"enable\":1,\"repeat\":1,\"etime_opt\":-1,\"name\":\"lamp\",\"eact\":-1,\"month\":0,\"sact\":1,\"year\":0,\"longitude\":0,\"day\":0,\"force\":0,\"latitude\":0,\"emin\":0\x7d,\"set_overall_enable\":\x7b\"enable\":1\x7d\x7d\x7d"] :=
  ⟨(repeat_flag_derived_from_weekdays (answering emptyReply) decodeSample samplePlug "" "lamp"
      noDays NONE 1 1014 1 0 0 0).2.1.trans rfl,
    (repeat_flag_derived_from_weekdays (answering emptyReply) decodeSample samplePlug "" "lamp"
      oneDay NONE 1 1014 1 0 0 0).2.1.trans rfl⟩

/-! ## Time and time zone -/

/-- C3, the code at the failing input. On a reply whose `time/get_timezone`
leaf (for `TimeZone`) or `time/get_time` leaf (for `Time`) has the status code
-3, the error returned reports the code 0, which is the status code of the
`system/set_relay_state` leaf of that reply. -/
theorem TimeZone_Time_report_relay_code :
    (∃ r, decodeSample timezoneRejected = .ok r ∧ r.Time.GetTimeZone.ErrorCode = -3) ∧
    Id.run (samplePlug.TimeZone (pureEnv (answering timezoneRejected) decodeSample)) =
      (0, some ⟨"failed to get time zone. Error code=0"⟩) ∧
    (∃ r, decodeSample timeRejected = .ok r ∧ r.Time.GetTime.ErrorCode = -3) ∧
    Id.run (samplePlug.Time wallClockPkg (pureEnv (answering timeRejected) decodeSample)) =
      (wallClockPkg.zero, some ⟨"failed to get time. Error code=0"⟩) := by
  refine ⟨⟨_, rfl, by decide⟩, by decide, ⟨_, rfl, by decide⟩, ?_⟩
  rfl

/-- C9, the code at the failing input. The replies
`{"time":{"get_time":{"err_code":-3}}}` and
`{"time":{"get_time":{"err_code":-3}},"system":{"set_relay_state":{"err_code":5}}}`
carry the same `time/get_time` leaf, and `Time` returns two different results
on them: the error it builds reports the status code of the
`system/set_relay_state` leaf. -/
theorem Time_result_depends_on_relay_leaf :
    (∃ r r', decodeSample timeRejected = .ok r ∧ decodeSample timeRejectedWithRelay = .ok r' ∧
      r.Time.GetTime = r'.Time.GetTime) ∧
    Id.run (samplePlug.Time wallClockPkg (pureEnv (answering timeRejected) decodeSample)) =
      (wallClockPkg.zero, some ⟨"failed to get time. Error code=0"⟩) ∧
    Id.run (samplePlug.Time wallClockPkg
        (pureEnv (answering timeRejectedWithRelay) decodeSample)) =
      (wallClockPkg.zero, some ⟨"failed to get time. Error code=5"⟩) ∧
    (⟨"failed to get time. Error code=0"⟩ : GoError) ≠ ⟨"failed to get time. Error code=5"⟩ := by
  refine ⟨⟨_, _, rfl, rfl, by decide⟩, rfl, rfl, by decide⟩

/-- What holds of `Time`: it calls `exec` once, with the command `GET_TIME`,
which is not the command `GET_TIMEZONE`; and when the `time/get_time` leaf of
the decoded reply has the status code 0, the result is the timestamp that
`time.Date` builds from the six fields of that leaf in the location that
`time.LoadLocation("EST")` returns, or the error of that call. -/
theorem Time_reads_get_time_leaf (T : TimePkg) (exec : String → String → String × Option GoError)
    (Unmarshal : String → Except GoError Response) (p : HS100) :
    commandsOf (p.Time T (recordingEnv exec Unmarshal)) = [GET_TIME] ∧
    GET_TIME ≠ GET_TIMEZONE ∧
    (∀ r, (exec p.ip GET_TIME).2 = none → Unmarshal (exec p.ip GET_TIME).1 = .ok r →
      r.Time.GetTime.ErrorCode = 0 →
      Id.run (p.Time T (pureEnv exec Unmarshal)) =
        match T.LoadLocation "EST" with
        | .error err => (T.zero, some (Errorf "failed to get device timezone: %s" [.str err.msg]))
        | .ok loc =>
          (T.Date r.Time.GetTime.Year r.Time.GetTime.Month r.Time.GetTime.Day r.Time.GetTime.Hour
            r.Time.GetTime.Minutes r.Time.GetTime.Seconds 0 loc, none)) := by
  refine ⟨?_, by decide, ?_⟩
  · simp only [commandsOf, HS100.Time, recordingEnv, StateT.run, bind, StateT.bind, pure,
      StateT.pure, List.nil_append]
    generalize exec p.ip _ = x
    obtain ⟨data, _ | err⟩ := x
    · simp only []
      cases Unmarshal data with
      | error e => rfl
      | ok r =>
        simp only []
        split
        · rfl
        · cases T.LoadLocation "EST" <;> rfl
    · rfl
  · intro r h1 h2 h3
    simp only [HS100.Time, pureEnv, Id.run, bind, pure]
    revert h1 h2
    rcases exec p.ip GET_TIME with ⟨data, _ | e⟩
    · intro _ h2
      simp only at h2
      simp only [h2, h3, ne_eq, not_true_eq_false, if_false]
      cases T.LoadLocation "EST" <;> rfl
    · intro h1
      simp at h1

/-- C10. The command that `SetTimeZone` hands to `exec` is the template
`SET_TIMEZONE` filled with the year, month, day, hour, minute and second of its
argument and the constant index 18; two times with the same six wall-clock
fields therefore produce the same command, whatever their locations. -/
theorem SetTimeZone_ignores_location (T : TimePkg)
    (exec : String → String → String × Option GoError)
    (Unmarshal : String → Except GoError Response) (p : HS100) (t t' : T.Time) :
    commandsOf (p.SetTimeZone T (recordingEnv exec Unmarshal) t) =
      [Sprintf SET_TIMEZONE [.int (T.Year t), .int (T.Month t), .int (T.Day t), .int (T.Hour t),
        .int (T.Minute t), .int (T.Second t), .int 18]] ∧
    (T.Year t = T.Year t' → T.Month t = T.Month t' → T.Day t = T.Day t' →
      T.Hour t = T.Hour t' → T.Minute t = T.Minute t' → T.Second t = T.Second t' →
      commandsOf (p.SetTimeZone T (recordingEnv exec Unmarshal) t) =
        commandsOf (p.SetTimeZone T (recordingEnv exec Unmarshal) t')) := by
  have key : ∀ s : T.Time, commandsOf (p.SetTimeZone T (recordingEnv exec Unmarshal) s) =
      [Sprintf SET_TIMEZONE [.int (T.Year s), .int (T.Month s), .int (T.Day s), .int (T.Hour s),
        .int (T.Minute s), .int (T.Second s), .int 18]] := by
    intro s
    simp only [commandsOf, HS100.SetTimeZone, recordingEnv, StateT.run, bind, StateT.bind, pure,
      StateT.pure, List.nil_append]
    generalize exec p.ip _ = x
    obtain ⟨data, _ | err⟩ := x
    · simp only []
      cases Unmarshal data with
      | error e => rfl
      | ok r => simp only []; split <;> rfl
    · rfl
  refine ⟨key t, ?_⟩
  intro h1 h2 h3 h4 h5 h6
  rw [key t, key t', h1, h2, h3, h4, h5, h6]

/-- C10 at two readings of 17 May 2024, 09:30:15, one in `EST` and one in
`Asia/Tokyo`: the two commands are the same text. -/
theorem SetTimeZone_ignores_location_witness :
    morningEST ≠ morningTokyo ∧
    commandsOf (samplePlug.SetTimeZone wallClockPkg
        (recordingEnv (answering emptyReply) decodeSample) morningEST) =
      commandsOf (samplePlug.SetTimeZone wallClockPkg
        (recordingEnv (answering emptyReply) decodeSample) morningTokyo) ∧
    commandsOf (samplePlug.SetTimeZone wallClockPkg
        (recordingEnv (answering emptyReply) decodeSample) morningEST) =
      ["\x7b\"time\":\x7b\"set_timezone\":\x7b\"year\":2024,\"month\":5,\"mday\":17,\"hour\":9,\"min\":30,\"sec\":15,\"index\":18\x7d\x7d\x7d"] :=
  ⟨by decide,
    (SetTimeZone_ignores_location wallClockPkg (answering emptyReply) decodeSample samplePlug
      morningEST morningTokyo).2 rfl rfl rfl rfl rfl rfl,
    by decide⟩

/-! ## Reading back what `Sprintf` wrote -/

theorem readString_plain (l rest : List Char) (h : ∀ c ∈ l, plainChar c = true) :
    readString (l ++ '"' :: rest) = some (l.map Sum.inl, rest) := by
  induction l with
  | nil =>
    rw [List.nil_append, readString.eq_def]
    simp
  | cons c l ih =>
    have hc := h c (List.mem_cons_self _ _)
    simp only [plainChar, Bool.and_eq_true, decide_eq_true_eq, bne_iff_ne, ne_eq] at hc
    obtain ⟨⟨h1, h2⟩, h3⟩ := hc
    have ih' := ih (fun d hd => h d (List.mem_cons_of_mem _ hd))
    rw [List.cons_append, readString.eq_def]
    simp [h1, h2, Nat.not_lt.2 h3, ih', consItem]

theorem combineUnits_inl (l : List Char) : combineUnits (l.map Sum.inl) = l := by
  induction l with
  | nil => rfl
  | cons c l ih => simp [combineUnits, ih]

/-- A string literal of plain characters is read back as it was written. -/
theorem parseValue_string (f : Nat) (l rest : List Char) (h : ∀ c ∈ l, plainChar c = true) :
    parseValue (f + 1) ('"' :: (l ++ '"' :: rest)) = some (JSON.str (String.mk l), rest) := by
  rw [parseValue]
  simp [skipSpace, isSpace, readString_plain l rest h, combineUnits_inl]

/-- The last member of an object. -/
theorem parseMembers_last (f : Nat) (key vtext tail : List Char) (v : JSON)
    (hkey : ∀ c ∈ key, plainChar c = true)
    (hv : parseValue f vtext = some (v, '\x7d' :: tail)) :
    parseMembers (f + 1) ('"' :: (key ++ '"' :: ':' :: vtext)) =
      some ([(String.mk key, v)], tail) := by
  rw [parseMembers]
  simp [skipSpace, isSpace, readString_plain key _ hkey, combineUnits_inl, hv]

/-- A member of an object that is followed by further members. -/
theorem parseMembers_more (f : Nat) (key vtext more tail : List Char) (v : JSON)
    (ms : List (String × JSON)) (hkey : ∀ c ∈ key, plainChar c = true)
    (hv : parseValue f vtext = some (v, ',' :: more))
    (hms : parseMembers f more = some (ms, tail)) :
    parseMembers (f + 1) ('"' :: (key ++ '"' :: ':' :: vtext)) =
      some ((String.mk key, v) :: ms, tail) := by
  rw [parseMembers]
  simp [skipSpace, isSpace, readString_plain key _ hkey, combineUnits_inl, hv, hms]

/-- An object whose first member starts right after the opening brace. -/
theorem parseValue_object (f : Nat) (rest tail : List Char) (ms : List (String × JSON))
    (hms : parseMembers f ('"' :: rest) = some (ms, tail)) :
    parseValue (f + 1) ('\x7b' :: '"' :: rest) = some (JSON.obj ms, tail) := by
  rw [parseValue]
  simp [skipSpace, isSpace, hms]

theorem plain_system : ∀ c ∈ chars "system", plainChar c = true := by decide

theorem plain_set_dev_alias : ∀ c ∈ chars "set_dev_alias", plainChar c = true := by decide

theorem plain_alias : ∀ c ∈ chars "alias", plainChar c = true := by decide

theorem parse_alias_command (k : Nat) (s : String) (h : plainText s) :
    parseValue (k + 7) (Sprintf SET_ALIAS [.str s]).data =
      some (JSON.obj [("system", JSON.obj [("set_dev_alias", JSON.obj [("alias", JSON.str s)])])],
        []) :=
  parseValue_object (k + 6) _ _ _
    (parseMembers_last (k + 5) (chars "system") _ _ _ plain_system
      (parseValue_object (k + 4) _ _ _
        (parseMembers_last (k + 3) (chars "set_dev_alias") _ _ _ plain_set_dev_alias
          (parseValue_object (k + 2) _ _ _
            (parseMembers_last (k + 1) (chars "alias") _ _ _ plain_alias
              (parseValue_string k s.data _ h))))))

theorem takeDigits_digits (ds tail : List Char) (h : ∀ c ∈ ds, c.isDigit = true) :
    takeDigits (ds ++ '\x7d' :: tail) = (ds, '\x7d' :: tail) := by
  induction ds with
  | nil =>
    rw [List.nil_append, takeDigits]
    simp
  | cons c ds ih =>
    have hc := h c (List.mem_cons_self _ _)
    have ih' := ih (fun d hd => h d (List.mem_cons_of_mem _ hd))
    rw [List.cons_append, takeDigits]
    simp [hc, ih']

/-- A digit is none of the characters that start another kind of value. -/
theorem digit_not_special (d : Char) (hd : d.isDigit = true) :
    isSpace d = false ∧ d ≠ '\x7b' ∧ d ≠ '[' ∧ d ≠ '"' ∧ d ≠ 't' ∧ d ≠ 'f' ∧ d ≠ 'n' ∧
      d ≠ '-' := by
  refine ⟨?_, ?_, ?_, ?_, ?_, ?_, ?_, ?_⟩
  · cases hs : isSpace d with
    | false => rfl
    | true =>
      simp only [isSpace, Bool.or_eq_true, decide_eq_true_eq] at hs
      rcases hs with ((h | h) | h) | h <;> (rw [h] at hd; exact absurd hd (by decide))
  all_goals
    intro h
    rw [h] at hd
    exact absurd hd (by decide)

theorem readInteger_decimal (n : Nat) (sign tail : List Char) :
    readInteger sign (decimal n ++ '\x7d' :: tail) = some (sign ++ decimal n, '\x7d' :: tail) := by
  obtain ⟨d, ds, heq, hd, hds, h0⟩ := decimal_spec n
  rw [heq, List.cons_append, readInteger]
  by_cases hz : d = '0'
  · obtain ⟨_, hnil⟩ := h0 hz
    subst hnil
    simp [hz, readFraction, readExponent]
  · simp [hz, hd, takeDigits_digits ds tail hds, readFraction, readExponent]

/-- A number written by the verb `%d` and followed by a closing brace is read back whole. -/
theorem readNumber_itoa (n : Int) (tail : List Char) :
    readNumber (itoa n ++ '\x7d' :: tail) = some (itoa n, '\x7d' :: tail) := by
  cases n with
  | ofNat m =>
    obtain ⟨d, ds, heq, hd, _, _⟩ := decimal_spec m
    have hne := (digit_not_special d hd).2.2.2.2.2.2.2
    have := readInteger_decimal m [] tail
    rw [heq] at this
    simp only [itoa, heq, List.cons_append, readNumber, hne, if_false]
    simpa using this
  | negSucc m =>
    have := readInteger_decimal (m + 1) ['-'] tail
    simp only [itoa, List.cons_append, readNumber, if_true]
    simpa using this

theorem parseValue_number (f : Nat) (n : Int) (tail : List Char) :
    parseValue (f + 1) (itoa n ++ '\x7d' :: tail) = some (JSON.num (itoa n), '\x7d' :: tail) := by
  have hnum := readNumber_itoa n tail
  cases n with
  | ofNat m =>
    obtain ⟨d, ds, heq, hd, _, _⟩ := decimal_spec m
    obtain ⟨h1, h2, h3, h4, h5, h6, h7, _⟩ := digit_not_special d hd
    simp only [itoa, heq, List.cons_append] at hnum ⊢
    rw [parseValue]
    simp [skipSpace, h1, h2, h3, h4, h5, h6, h7, hnum]
  | negSucc m =>
    simp only [itoa, List.cons_append] at hnum ⊢
    rw [parseValue]
    simp [skipSpace, isSpace, hnum]

theorem plain_cnCloud : ∀ c ∈ chars "cnCloud", plainChar c = true := by decide

theorem plain_bind : ∀ c ∈ chars "bind", plainChar c = true := by decide

theorem plain_username : ∀ c ∈ chars "username", plainChar c = true := by decide

theorem plain_password : ∀ c ∈ chars "password", plainChar c = true := by decide

theorem plain_netif : ∀ c ∈ chars "netif", plainChar c = true := by decide

theorem plain_set_stainfo : ∀ c ∈ chars "set_stainfo", plainChar c = true := by decide

theorem plain_ssid : ∀ c ∈ chars "ssid", plainChar c = true := by decide

theorem plain_key_type : ∀ c ∈ chars "key_type", plainChar c = true := by decide

theorem parse_bind_command (k : Nat) (username password : String) (hu : plainText username)
    (hp : plainText password) :
    parseValue (k + 8) (Sprintf CLOUD_BIND [.str username, .str password]).data =
      some (JSON.obj [("cnCloud", JSON.obj [("bind",
        JSON.obj [("username", JSON.str username), ("password", JSON.str password)])])], []) :=
  parseValue_object (k + 7) _ _ _
    (parseMembers_last (k + 6) (chars "cnCloud") _ _ _ plain_cnCloud
      (parseValue_object (k + 5) _ _ _
        (parseMembers_last (k + 4) (chars "bind") _ _ _ plain_bind
          (parseValue_object (k + 3) _ _ _
            (parseMembers_more (k + 2) (chars "username") _ _ _ _ _ plain_username
              (parseValue_string (k + 1) username.data _ hu)
              (parseMembers_last (k + 1) (chars "password") _ _ _ plain_password
                (parseValue_string k password.data _ hp)))))))

theorem parse_wifi_command (k : Nat) (ssid password : String) (keyType : Int)
    (hs : plainText ssid) (hp : plainText password) :
    parseValue (k + 9) (Sprintf SET_WIFI [.str ssid, .str password, .int keyType]).data =
      some (JSON.obj [("netif", JSON.obj [("set_stainfo",
        JSON.obj [("ssid", JSON.str ssid), ("password", JSON.str password),
          ("key_type", JSON.num (itoa keyType))])])], []) :=
  parseValue_object (k + 8) _ _ _
    (parseMembers_last (k + 7) (chars "netif") _ _ _ plain_netif
      (parseValue_object (k + 6) _ _ _
        (parseMembers_last (k + 5) (chars "set_stainfo") _ _ _ plain_set_stainfo
          (parseValue_object (k + 4) _ _ _
            (parseMembers_more (k + 3) (chars "ssid") _ _ _ _ _ plain_ssid
              (parseValue_string (k + 2) ssid.data _ hs)
              (parseMembers_more (k + 2) (chars "password") _ _ _ _ _ plain_password
                (parseValue_string (k + 1) password.data _ hp)
                (parseMembers_last (k + 1) (chars "key_type") _ _ _ plain_key_type
                  (parseValue_number k keyType _))))))))

/-- A document read with `k + 1` units of fuel is read alike by `parseJSON`
when `k` is no more than the length of the text. -/
theorem parseJSON_of_parseValue (text : String) (n : Nat) (v : JSON)
    (hlen : n ≤ text.length)
    (h : ∀ k, parseValue (k + n) text.data = some (v, [])) : parseJSON text = some v := by
  obtain ⟨k, hk⟩ : ∃ k, text.length + 1 = k + n := ⟨text.length + 1 - n, by omega⟩
  simp [parseJSON, hk, h k, skipSpace]

/-! ## String arguments of a command -/

/-- C6, counterexample. With the alias `a"b` the command of `SetAlias` is the
text `{"system":{"set_dev_alias":{"alias":"a"b"}}}`, which is not a JSON
document; with the alias `x","alias":"y` the command is a document whose alias
argument is `y`; with the alias `a\b` (one backslash) the alias argument is
the letter `a` followed by a backspace character. -/
theorem SetAlias_substitutes_alias_unescaped :
    commandsOf (samplePlug.SetAlias (recordingEnv (answering emptyReply) decodeSample) "a\"b") =
      ["\x7b\"system\":\x7b\"set_dev_alias\":\x7b\"alias\":\"a\"b\"\x7d\x7d\x7d"] ∧
    parseJSON (Sprintf SET_ALIAS [.str "a\"b"]) = none ∧
    commandArgument (Sprintf SET_ALIAS [.str "a\"b"]) "system" "set_dev_alias" "alias" = none ∧
    commandArgument (Sprintf SET_ALIAS [.str "x\",\"alias\":\"y"]) "system" "set_dev_alias" "alias" =
      some (JSON.str "y") ∧
    commandArgument (Sprintf SET_ALIAS [.str "a\\b"]) "system" "set_dev_alias" "alias" =
      some (JSON.str "a\x08") ∧
    commandArgument (Sprintf SET_WIFI [.str "net", .str "pass\"word", .int 3]) "netif"
      "set_stainfo" "password" = none ∧
    commandArgument (Sprintf CLOUD_BIND [.str "me", .str "pass\"word"]) "cnCloud" "bind"
      "password" = none := by
  refine ⟨by decide, rfl, rfl, rfl, rfl, rfl, rfl⟩

/-- C6, amended. The string arguments are substituted into the template as
they stand. For every alias made of plain characters (no double quote, no
backslash, no control character below U+0020) the command that `SetAlias`
hands to `exec` is a JSON document whose alias argument decodes back to exactly
the alias; likewise for a plain ssid and password of `SetWifi`, whatever the
key type, and for a plain username and password of `CloudBind`. -/
theorem plain_arguments_read_back (exec : String → String → String × Option GoError)
    (Unmarshal : String → Except GoError Response) (p : HS100)
    (alias' ssid password username : String) (keyType : Int)
    (halias : plainText alias') (hssid : plainText ssid) (hpassword : plainText password)
    (husername : plainText username) :
    (commandsOf (p.SetAlias (recordingEnv exec Unmarshal) alias') =
        [Sprintf SET_ALIAS [.str alias']] ∧
      commandArgument (Sprintf SET_ALIAS [.str alias']) "system" "set_dev_alias" "alias" =
        some (JSON.str alias')) ∧
    (commandsOf (p.SetWifi (recordingEnv exec Unmarshal) ssid password keyType) =
        [Sprintf SET_WIFI [.str ssid, .str password, .int keyType]] ∧
      commandArgument (Sprintf SET_WIFI [.str ssid, .str password, .int keyType]) "netif"
        "set_stainfo" "ssid" = some (JSON.str ssid) ∧
      commandArgument (Sprintf SET_WIFI [.str ssid, .str password, .int keyType]) "netif"
        "set_stainfo" "password" = some (JSON.str password)) ∧
    (commandsOf (p.CloudBind (recordingEnv exec Unmarshal) username password) =
        [Sprintf CLOUD_BIND [.str username, .str password]] ∧
      commandArgument (Sprintf CLOUD_BIND [.str username, .str password]) "cnCloud" "bind"
        "username" = some (JSON.str username) ∧
      commandArgument (Sprintf CLOUD_BIND [.str username, .str password]) "cnCloud" "bind"
        "password" = some (JSON.str password)) := by
  have hcmd : commandsOf (p.SetAlias (recordingEnv exec Unmarshal) alias') =
        [Sprintf SET_ALIAS [.str alias']] ∧
      commandsOf (p.SetWifi (recordingEnv exec Unmarshal) ssid password keyType) =
        [Sprintf SET_WIFI [.str ssid, .str password, .int keyType]] ∧
      commandsOf (p.CloudBind (recordingEnv exec Unmarshal) username password) =
        [Sprintf CLOUD_BIND [.str username, .str password]] := by
    refine ⟨?_, ?_, ?_⟩ <;>
    · simp only [commandsOf, HS100.SetAlias, HS100.SetWifi, HS100.CloudBind, recordingEnv,
        StateT.run, bind, StateT.bind, pure, StateT.pure, List.nil_append]
      generalize exec p.ip _ = x
      obtain ⟨data, _ | err⟩ := x
      · simp only []
        cases Unmarshal data with
        | error e => rfl
        | ok r => simp only []; split <;> rfl
      · rfl
  have h1 := parseJSON_of_parseValue (Sprintf SET_ALIAS [.str alias']) 7 _
    (by
      show 7 ≤ (chars "\x7b\"system\":\x7b\"set_dev_alias\":\x7b\"alias\":\"" ++
        (alias'.data ++ chars "\"\x7d\x7d\x7d")).length
      simp only [chars, List.length_append, List.length_cons, List.length_nil]
      omega)
    (fun k => parse_alias_command k alias' halias)
  have h2 := parseJSON_of_parseValue (Sprintf SET_WIFI [.str ssid, .str password, .int keyType])
    9 _
    (by
      show 9 ≤ (chars "\x7b\"netif\":\x7b\"set_stainfo\":\x7b\"ssid\":\"" ++
        (ssid.data ++ (chars "\",\"password\":\"" ++ (password.data ++
          (chars "\",\"key_type\":" ++ (itoa keyType ++ chars "\x7d\x7d\x7d")))))).length
      simp only [chars, List.length_append, List.length_cons, List.length_nil]
      omega)
    (fun k => parse_wifi_command k ssid password keyType hssid hpassword)
  have h3 := parseJSON_of_parseValue (Sprintf CLOUD_BIND [.str username, .str password]) 8 _
    (by
      show 8 ≤ (chars "\x7b\"cnCloud\":\x7b\"bind\":\x7b\"username\":\"" ++
        (username.data ++ (chars "\",\"password\":\"" ++
          (password.data ++ chars "\"\x7d\x7d\x7d")))).length
      simp only [chars, List.length_append, List.length_cons, List.length_nil]
      omega)
    (fun k => parse_bind_command k username password husername hpassword)
  refine ⟨⟨hcmd.1, ?_⟩, ⟨hcmd.2.1, ?_, ?_⟩, ⟨hcmd.2.2, ?_, ?_⟩⟩
  · rw [commandArgument, h1]; rfl
  · rw [commandArgument, h2]; rfl
  · rw [commandArgument, h2]; rfl
  · rw [commandArgument, h3]; rfl
  · rw [commandArgument, h3]; rfl

/-- C6, amended, at the alias `kitchen plug`, the network `home` with the
password `s3cret` and the account `me@example.com`. -/
theorem plain_arguments_read_back_witness :
    commandArgument (Sprintf SET_ALIAS [.str "kitchen plug"]) "system" "set_dev_alias" "alias" =
      some (JSON.str "kitchen plug") ∧
    commandArgument (Sprintf SET_WIFI [.str "home", .str "s3cret", .int 3]) "netif" "set_stainfo"
      "password" = some (JSON.str "s3cret") ∧
    commandArgument (Sprintf CLOUD_BIND [.str "me@example.com", .str "s3cret"]) "cnCloud" "bind"
      "username" = some (JSON.str "me@example.com") :=
  have h := plain_arguments_read_back (answering emptyReply) decodeSample samplePlug
    "kitchen plug" "home" "s3cret" "me@example.com" 3 (by decide) (by decide) (by decide)
    (by decide)
  ⟨h.1.2, h.2.1.2.2, h.2.2.2.1⟩

end tplink
